import Mathlib

/-!
Verification development for the healthcare-chatbot dialogue engine.

The definitions below are a shallow embedding of the server code: string
handling (lower-casing, trimming, substring search, word-boundary regex
tests) is modelled over `List Char`; the engine's configuration tables are
transcribed verbatim; the stateful functions (`handleAppointmentFlow`,
`generateResponse`) are modelled as pure functions that take a session
context and return the updated context together with the produced response,
side-channel emit count, and whether the generative hook was invoked.
JavaScript `undefined`/`null`/empty-string falsiness is modelled with
`Option` plus explicit emptiness checks at the points the code tests
truthiness.
-/

/-- ASCII lower-casing of a character, as performed by `toLowerCase` on the
engine's ASCII vocabulary. -/
def lowerChar (c : Char) : Char :=
  if 'A' ≤ c && c ≤ 'Z' then Char.ofNat (c.toNat + 32) else c

/-- Model of JavaScript `String.prototype.toLowerCase` on ASCII text. -/
def jsLower (s : String) : String :=
  String.mk (s.data.map lowerChar)

/-- Whitespace recognised by JavaScript `trim` and `\s` (ASCII part). -/
def isSpaceChar (c : Char) : Bool :=
  c = ' ' || c = '\t' || c = '\n' || c = '\r' || c = '\x0b' || c = '\x0c'

/-- Model of JavaScript `String.prototype.trim`. -/
def jsTrim (s : String) : String :=
  String.mk (((s.data.dropWhile isSpaceChar).reverse.dropWhile isSpaceChar).reverse)

/-- Does the list contain `pat` as a contiguous sublist?  Models
JavaScript `String.prototype.includes`. -/
def listContainsSub (pat : List Char) : List Char → Bool
  | [] => pat.isEmpty
  | c :: t => pat.isPrefixOf (c :: t) || listContainsSub pat t

/-- Model of `s.includes(pat)`. -/
def strContains (s pat : String) : Bool :=
  listContainsSub pat.data s.data

/-- Word characters of JavaScript regular expressions (`\w`). -/
def isWordChar (c : Char) : Bool :=
  ('a' ≤ c && c ≤ 'z') || ('A' ≤ c && c ≤ 'Z') || ('0' ≤ c && c ≤ '9') || c = '_'

/-- Boundary condition to the left of a match position: start of string or a
non-word character. -/
def okBefore : Option Char → Bool
  | none => true
  | some c => !isWordChar c

/-- Boundary condition to the right of a match: end of string or a non-word
character. -/
def okAfterList : List Char → Bool
  | [] => true
  | c :: _ => !isWordChar c

/-- Does the word-bounded pattern match at the head of `s`, with `prev` the
character just before this position? -/
def wordMatchHere (pat s : List Char) (prev : Option Char) : Bool :=
  pat.isPrefixOf s && okBefore prev && okAfterList (s.drop pat.length)

/-- Scan for a word-bounded occurrence of `pat` anywhere in the list. -/
def hasWordMatchAux (pat : List Char) (prev : Option Char) : List Char → Bool
  | [] => false
  | c :: t => wordMatchHere pat (c :: t) prev || hasWordMatchAux pat (some c) t

/-- Model of `/\b(a1|a2|...)\b/.test(s)` for alternatives that begin and end
with word characters, as all the engine's keyword alternatives do. -/
def regexWordTest (alts : List String) (s : String) : Bool :=
  alts.any (fun a => hasWordMatchAux a.data none s.data)

/-- Numeric value of a list of decimal digit characters (`parseInt`). -/
def parseNatDigits (l : List Char) : Nat :=
  l.foldl (fun n c => n * 10 + (c.toNat - 48)) 0

/-- Remove the first occurrence of `pat` from a list of characters.  Models
JavaScript `String.prototype.replace` with a plain-string pattern and empty
replacement. -/
def removeFirstList (pat : List Char) : List Char → List Char
  | [] => []
  | c :: t => if pat.isPrefixOf (c :: t) then (c :: t).drop pat.length else c :: removeFirstList pat t

/-- Model of `s.replace(pat, "")` (first occurrence only). -/
def strRemoveFirst (s pat : String) : String :=
  String.mk (removeFirstList pat.data s.data)

/-- Join a list of strings with newlines, as `Array.prototype.join('\n')`. -/
def joinNL (l : List String) : String :=
  String.intercalate "\n" l

/-- Render a list as numbered lines, matching the template
`(i + 1) ++ ". " ++ item` joined by newlines used by the engine. -/
def numberedJoin (l : List String) : String :=
  joinNL (l.enum.map (fun p => toString (p.1 + 1) ++ ". " ++ p.2))

/-- The JavaScript `x || y` fallback on an optional string: `null`,
`undefined` and the empty string all select the fallback. -/
def optOr (o : Option String) (dflt : String) : String :=
  match o with
  | some s => if s = "" then dflt else s
  | none => dflt

/-- String interpolation of a possibly-null value (JavaScript renders `null`
as the text `"null"`). -/
def optToStr : Option String → String
  | some s => s
  | none => "null"

/-- Set-union with first-occurrence order, `[...new Set([...a, ...b])]`. -/
def dedup (l : List String) : List String :=
  l.eraseDups

/-- Template selection `list[Math.floor(Math.random() * list.length)]`, with
the random draw supplied as an explicit index `k`. -/
def pickTemplate (k : Nat) (l : List String) : String :=
  l.getD (k % l.length) ""

/-- Knowledge-base entry for a common symptom. -/
structure SymptomKnowledge where
  description : String
  severity : String
  recommendations : List String
deriving DecidableEq, Repr

/-- Interaction-table entry for one medication. -/
structure MedInfo where
  interactions : List String
  warnings : String
deriving DecidableEq, Repr

/-- One level of the triage configuration. -/
structure TriageLevelInfo where
  keywords : List String
  priority : Nat
  action : String
deriving DecidableEq, Repr

/-- The four-level triage configuration. -/
structure TriageLevels where
  emergency : TriageLevelInfo
  urgent : TriageLevelInfo
  moderate : TriageLevelInfo
  routine : TriageLevelInfo
deriving DecidableEq, Repr

namespace medicalKnowledge

/-- The `commonSymptoms` table of the medical knowledge base. -/
def commonSymptoms : List (String × SymptomKnowledge) :=
  [("headache",
    { description := "Headaches can be caused by tension, migraines, dehydration, or other factors."
      severity := "moderate"
      recommendations := ["Stay hydrated", "Rest in a quiet, dark room", "Consider over-the-counter pain relief if appropriate", "See a doctor if severe or persistent"] }),
   ("fever",
    { description := "Fever is usually a sign of infection. Normal body temperature is around 98.6°F (37°C)."
      severity := "moderate"
      recommendations := ["Rest and stay hydrated", "Monitor temperature regularly", "Use fever-reducing medication if appropriate", "Seek medical care if fever is high (>103°F) or persists"] }),
   ("cough",
    { description := "Coughs can be dry or productive, and may indicate respiratory issues."
      severity := "mild"
      recommendations := ["Stay hydrated", "Use a humidifier", "Avoid irritants like smoke", "See a doctor if persistent or accompanied by other symptoms"] }),
   ("nausea",
    { description := "Nausea can be caused by various factors including infections, medications, or digestive issues."
      severity := "moderate"
      recommendations := ["Stay hydrated with small sips", "Avoid heavy or spicy foods", "Rest", "Seek care if severe or persistent"] })]

/-- The `specialties` table. -/
def specialties : List (String × String) :=
  [("cardiology", "Heart and cardiovascular system"),
   ("dermatology", "Skin conditions"),
   ("endocrinology", "Hormones and metabolism"),
   ("gastroenterology", "Digestive system"),
   ("neurology", "Nervous system and brain"),
   ("orthopedics", "Bones, joints, and muscles"),
   ("pediatrics", "Children\x27s health"),
   ("psychiatry", "Mental health")]

/-- The `wellnessTips` table. -/
def wellnessTips : List (String × List String) :=
  [("nutrition", ["Eat a balanced diet with fruits and vegetables", "Stay hydrated (8 glasses of water daily)", "Limit processed foods", "Control portion sizes"]),
   ("exercise", ["Aim for 150 minutes of moderate exercise per week", "Include strength training 2x per week", "Stay active throughout the day", "Find activities you enjoy"]),
   ("sleep", ["Aim for 7-9 hours of sleep per night", "Maintain a regular sleep schedule", "Create a relaxing bedtime routine", "Avoid screens before bed"]),
   ("mental", ["Practice stress management techniques", "Stay connected with friends and family", "Take breaks when needed", "Consider meditation or mindfulness"])]

/-- The directional `medicationInteractions` table (interactions recorded
under one medication\x27s key only). -/
def medicationInteractions : List (String × MedInfo) :=
  [("aspirin",
    { interactions := ["warfarin", "ibuprofen", "naproxen"]
      warnings := "May increase bleeding risk when combined with blood thinners" }),
   ("ibuprofen",
    { interactions := ["aspirin", "warfarin", "lithium"]
      warnings := "Can increase risk of stomach bleeding and kidney problems" }),
   ("warfarin",
    { interactions := ["aspirin", "ibuprofen", "vitamin k"]
      warnings := "Many medications and foods can affect blood thinning levels" })]

/-- The `triageLevels` configuration. -/
def triageLevels : TriageLevels :=
  { emergency :=
      { keywords := ["chest pain", "can\x27t breathe", "unconscious", "severe bleeding", "heart attack", "stroke"]
        priority := 1
        action := "Call 911 immediately" }
    urgent :=
      { keywords := ["high fever", "severe pain", "difficulty breathing", "persistent vomiting"]
        priority := 2
        action := "Seek emergency care or urgent care within hours" }
    moderate :=
      { keywords := ["moderate pain", "fever", "persistent symptoms"]
        priority := 3
        action := "Schedule appointment within 24-48 hours" }
    routine :=
      { keywords := ["mild symptoms", "wellness", "preventive"]
        priority := 4
        action := "Schedule routine appointment" } }

end medicalKnowledge

namespace chatbotResponses

/-- Greeting templates. -/
def greeting : List String :=
  ["Hello! I\x27m your healthcare assistant. How can I help you with your health concerns today?",
   "Hi there! I\x27m here to assist with your healthcare needs. What can I help you with?",
   "Welcome! I\x27m your medical assistant. How may I assist you today?",
   "Hello! I\x27m here to help with your health questions. What would you like to know?"]

/-- Goodbye templates. -/
def goodbye : List String :=
  ["Take care of yourself! Remember to consult a healthcare professional for serious concerns.",
   "Stay healthy! Don\x27t hesitate to reach out if you have more questions.",
   "Goodbye! Wishing you good health. Please consult a doctor for medical emergencies.",
   "Take care! For urgent medical issues, please contact emergency services immediately."]

/-- Help templates. -/
def help : List String :=
  ["I can help you with: general health information, symptom guidance, appointment scheduling, medication reminders, wellness tips, and answering health-related questions. However, I\x27m not a replacement for professional medical advice. For serious symptoms or emergencies, please consult a healthcare provider immediately.",
   "I assist with healthcare information, symptoms, appointments, and general wellness. Please note: I provide general information only and cannot diagnose or treat. Always consult a qualified healthcare professional for medical advice.",
   "I\x27m here to provide general health information and guidance. I can help with symptoms, appointments, medications, and wellness. Important: For medical emergencies, call emergency services. For diagnosis and treatment, consult a healthcare provider."]

/-- Symptom fallback templates. -/
def symptoms : List String :=
  ["I understand you\x27re experiencing symptoms. While I can provide general information, it\x27s important to consult with a healthcare professional for proper diagnosis. Can you tell me more about when these symptoms started?",
   "Thank you for sharing your symptoms. For accurate diagnosis and treatment, I recommend scheduling an appointment with a healthcare provider. Would you like help finding a doctor?",
   "I hear your concern about these symptoms. For your safety, please consult a healthcare professional. If symptoms are severe or life-threatening, seek emergency care immediately."]

/-- Appointment templates. -/
def appointment : List String :=
  ["I can help you schedule an appointment! You can book through our online portal or call our scheduling line at (555) 123-4567. What type of appointment do you need?",
   "To schedule an appointment, you can visit our website, use our mobile app, or call us. What specialty or type of care are you looking for?",
   "I\x27d be happy to help you schedule an appointment. You can book online 24/7 or call our office during business hours. What date works best for you?"]

/-- Medication templates. -/
def medication : List String :=
  ["For medication questions, it\x27s best to consult with your pharmacist or prescribing doctor. They can provide specific information about dosages, interactions, and side effects. Is there a specific medication you\x27re asking about?",
   "I can provide general medication information, but for specific questions about your prescriptions, please contact your healthcare provider or pharmacist. They have access to your medical history and can give personalized advice.",
   "Medication safety is important. For questions about your medications, side effects, or interactions, please speak with your doctor or pharmacist directly."]

/-- Emergency templates (the deterministic emergency response). -/
def emergency : List String :=
  ["If you\x27re experiencing a medical emergency, please call 911 or go to your nearest emergency room immediately. This chatbot cannot provide emergency medical assistance.",
   "For life-threatening emergencies, call 911 right away. Do not wait. This includes chest pain, difficulty breathing, severe injuries, or loss of consciousness.",
   "URGENT: If this is a medical emergency, please hang up and call 911 immediately. This service is for non-emergency health information only."]

/-- Wellness templates. -/
def wellness : List String :=
  ["Great question about wellness! Some general tips: stay hydrated, get regular exercise, maintain a balanced diet, get adequate sleep (7-9 hours), and manage stress. Would you like more specific wellness advice?",
   "Wellness is important for overall health. Key areas include: nutrition, physical activity, mental health, sleep, and preventive care. What aspect of wellness would you like to focus on?",
   "I\x27m glad you\x27re thinking about wellness! Regular check-ups, healthy eating, exercise, and stress management are all important. Is there a specific wellness goal you\x27re working toward?"]

/-- Default templates. -/
def defaultR : List String :=
  ["I understand your concern. For accurate medical information, I recommend consulting with a healthcare professional. Is there a specific health topic I can help you learn more about?",
   "Thank you for sharing. I can provide general health information, but for personalized medical advice, please consult your healthcare provider. What would you like to know more about?",
   "I\x27m here to help with general health information. For specific medical concerns, diagnosis, or treatment, please see a qualified healthcare professional. How else can I assist you?"]

end chatbotResponses

/-- The positive sentiment lexicon. -/
def positiveWords : List String :=
  ["good", "great", "better", "improving", "fine", "ok", "okay", "well", "thanks", "thank you"]

/-- The negative sentiment lexicon. -/
def negativeWords : List String :=
  ["bad", "worse", "terrible", "awful", "pain", "hurt", "sick", "worried", "concerned", "scared"]

/-- The medication vocabulary of the entity extractor. -/
def medicationPatterns : List String :=
  ["aspirin", "ibuprofen", "tylenol", "advil", "warfarin", "metformin", "insulin"]

/-- The body-part vocabulary of the entity extractor. -/
def bodyPartsVocab : List String :=
  ["head", "chest", "stomach", "back", "arm", "leg", "throat", "ear", "eye", "nose"]

/-- The ordered intent categories and their keyword alternatives, in the
declaration order the classifier iterates over. -/
def intentPatterns : List (String × List String) :=
  [("emergency", ["emergency", "chest pain", "can\x27t breathe", "difficulty breathing", "severe pain", "heart attack", "stroke", "unconscious", "bleeding", "poison", "overdose", "suicide", "self harm", "crushing", "pressure", "sudden"]),
   ("greeting", ["hi", "hello", "hey", "greetings", "good morning", "good afternoon", "good evening", "what\x27s up"]),
   ("goodbye", ["bye", "goodbye", "see you", "farewell", "exit", "quit", "thanks", "thank you", "appreciate"]),
   ("help", ["help", "what can you do", "how can you help", "assist", "capabilities", "features"]),
   ("symptom", ["symptom", "pain", "ache", "hurt", "fever", "nausea", "dizzy", "headache", "stomach", "feeling", "unwell", "sick", "illness", "disease", "condition", "tired", "fatigue", "weak", "sore"]),
   ("appointment", ["appointment", "schedule", "book", "visit", "see doctor", "see a doctor", "consultation", "checkup", "exam", "available", "when", "book now", "check availability", "find doctor"]),
   ("medication", ["medication", "medicine", "drug", "pill", "prescription", "dosage", "side effect", "interaction", "pharmacy", "take", "taking"]),
   ("wellness", ["wellness", "healthy", "diet", "exercise", "fitness", "nutrition", "sleep", "stress", "mental health", "prevention", "preventive", "weight", "fitness"]),
   ("specialty", ["cardiologist", "dermatologist", "neurologist", "orthopedic", "pediatrician", "psychiatrist", "specialist", "specialty"]),
   ("triage", ["urgent", "emergency", "severe", "mild", "moderate", "how bad", "how serious", "priority"])]

/-- The fixed booking-trigger phrases of the appointment flow. -/
def bookingTriggers : List String :=
  ["book now", "schedule appointment", "book", "schedule", "check availability"]

/-- Sentiment analysis: lower-case the message, add one for each positive
lexicon word the message contains and subtract one for each negative lexicon
word it contains (a presence check per lexicon word), then classify by the
sign of the score. -/
def analyzeSentiment (message : String) : String :=
  let msg := jsLower message
  let score1 : Int := positiveWords.foldl (fun s w => if strContains msg w then s + 1 else s) 0
  let score : Int := negativeWords.foldl (fun s w => if strContains msg w then s - 1 else s) score1
  if score > 0 then "positive" else if score < 0 then "negative" else "neutral"

/-- Entities extracted from one message. -/
structure Entities where
  medications : List String
  symptoms : List String
  bodyParts : List String
  numbers : List Nat
  timeExpressions : List String
deriving DecidableEq, Repr

/-- Scan for `/\b\d+\b/g` matches: maximal digit runs whose neighbours are
non-word characters.  `prevWord` records whether the previous character was a
word character, `cur` the pending digit run (reversed), and `curOk` whether
that run started at a word boundary. -/
def extractNumbersGo (prevWord : Bool) (cur : List Char) (curOk : Bool) : List Char → List Nat
  | [] => if !cur.isEmpty && curOk then [parseNatDigits cur.reverse] else []
  | c :: t =>
    if c.isDigit then
      if !cur.isEmpty then extractNumbersGo true (c :: cur) curOk t
      else extractNumbersGo true [c] (!prevWord) t
    else
      (if !cur.isEmpty && curOk && !isWordChar c then [parseNatDigits cur.reverse] else []) ++
        extractNumbersGo (isWordChar c) [] false t

/-- All `/\b\d+\b/g` matches of a message, as numbers. -/
def extractNumbers (s : List Char) : List Nat :=
  extractNumbersGo false [] false s

/-- The unit alternatives of the time-expression pattern, in alternation
order. -/
def timeUnits : List String :=
  ["day", "days", "hour", "hours", "week", "weeks", "month", "months", "year", "years"]

/-- Case-insensitive prefix test: does `pat` (lower case) start the given
text when the text is lower-cased? -/
def ciMatches (pat : List Char) (l : List Char) : Bool :=
  pat.isPrefixOf (l.map lowerChar)

/-- Try to match `\b(\d+)\s*(unit)\b` at the head of `l` (the leading word
boundary is checked by the caller).  Returns the matched slice of the
original text and the remaining text.  The first unit alternative that both
matches and is followed by a word boundary wins, as in regex alternation
with a trailing `\b`. -/
def matchTimeAt (units : List String) (l : List Char) : Option (List Char × List Char) :=
  let digits := l.takeWhile Char.isDigit
  if digits.isEmpty then none
  else
    let afterD := l.drop digits.length
    let spaces := afterD.takeWhile isSpaceChar
    let rest2 := afterD.drop spaces.length
    match units.find? (fun u =>
        ciMatches u.data (rest2.take u.data.length) && okAfterList (rest2.drop u.data.length)) with
    | some u => some (digits ++ spaces ++ rest2.take u.data.length, rest2.drop u.data.length)
    | none => none

/-- Scan for all `/\b(\d+)\s*(unit...)\b/gi` matches of a message.  Matches
must start at a digit preceded by a non-word character; matches cannot
overlap, so a character-by-character scan is equivalent to the global regex
scan. -/
def extractTimesGo (units : List String) (prevWord : Bool) : List Char → List (List Char)
  | [] => []
  | c :: t =>
    (match (if prevWord then none else matchTimeAt units (c :: t)) with
     | some (m, _) => [m]
     | none => []) ++ extractTimesGo units (isWordChar c) t

/-- Entity extraction: vocabulary substring containment for medications and
body parts (case-insensitive), digit-token numbers, and
`number unit` time expressions.  The `symptoms` field is initialised empty
and never filled by the extractor. -/
def extractEntities (message : String) : Entities :=
  let msg := jsLower message
  { medications := medicationPatterns.filter (fun med => strContains msg med)
    symptoms := []
    bodyParts := bodyPartsVocab.filter (fun part => strContains msg part)
    numbers := extractNumbers message.data
    timeExpressions := (extractTimesGo timeUnits false message.data).map String.mk }

/-- Ordered intent classification: the first category in declaration order
whose word-bounded keyword pattern matches the lower-cased, trimmed message
wins; `general` otherwise. -/
def detectIntent (message : String) : String :=
  let msg := jsTrim (jsLower message)
  match intentPatterns.find? (fun p => regexWordTest p.2 msg) with
  | some p => p.1
  | none => "general"

/-- Symptom information extracted from one message. -/
structure SymptomInfo where
  symptoms : List String
  duration : Option String
  severity : Option String
deriving DecidableEq, Repr

/-- The symptom-duration units (no years), in alternation order. -/
def symptomTimeUnits : List String :=
  ["day", "days", "hour", "hours", "week", "weeks", "month", "months"]

/-- First `\b(\d+)\s*(unit)\b` match of a message, returned as the digit
group and the unit group (both as matched in the original text). -/
def findSymptomDuration (units : List String) (prevWord : Bool) : List Char → Option (List Char × List Char)
  | [] => none
  | c :: t =>
    match (if prevWord then none else matchTimeAt units (c :: t)) with
    | some _ =>
      let digits := (c :: t).takeWhile Char.isDigit
      let afterD := (c :: t).drop digits.length
      let spaces := afterD.takeWhile isSpaceChar
      let rest2 := afterD.drop spaces.length
      match units.find? (fun u =>
          ciMatches u.data (rest2.take u.data.length) && okAfterList (rest2.drop u.data.length)) with
      | some u => some (digits, rest2.take u.data.length)
      | none => none
    | none => findSymptomDuration units (isWordChar c) t

/-- The severity words, in alternation order. -/
def severityWords : List String :=
  ["severe", "mild", "moderate", "intense", "extreme", "slight"]

/-- First word-bounded match of one of the alternatives, scanning left to
right (the alternatives are distinct whole words, so position order decides).
Returns the matched alternative. -/
def findWordFirst (alts : List String) (prevWord : Bool) : List Char → Option String
  | [] => none
  | c :: t =>
    match (if prevWord then none
           else alts.find? (fun a =>
             a.data.isPrefixOf (c :: t) && okAfterList ((c :: t).drop a.data.length))) with
    | some a => some a
    | none => findWordFirst alts (isWordChar c) t

/-- Extract the symptoms named in the knowledge base, a duration phrase, and
a severity word from a message. -/
def extractSymptomInfo (message : String) : SymptomInfo :=
  let msg := jsLower message
  let symptoms := (medicalKnowledge.commonSymptoms.map Prod.fst).filter (fun s => strContains msg s)
  let duration :=
    match findSymptomDuration symptomTimeUnits false message.data with
    | some (d, u) => some (String.mk d ++ " " ++ String.mk u)
    | none => none
  let severity := findWordFirst severityWords false msg.data
  { symptoms := symptoms, duration := duration, severity := severity }

/-- The result record of `performTriage`. -/
structure TriageResult where
  triageLevel : String
  priority : Nat
  action : String
  urgency : String
deriving DecidableEq, Repr

/-- The emergency triage result. -/
def emergencyTriageResult : TriageResult :=
  { triageLevel := "emergency", priority := 1
    action := medicalKnowledge.triageLevels.emergency.action, urgency := "CRITICAL" }

/-- The urgent triage result. -/
def urgentTriageResult : TriageResult :=
  { triageLevel := "urgent", priority := 2
    action := medicalKnowledge.triageLevels.urgent.action, urgency := "HIGH" }

/-- The moderate triage result. -/
def moderateTriageResult : TriageResult :=
  { triageLevel := "moderate", priority := 3
    action := medicalKnowledge.triageLevels.moderate.action, urgency := "MEDIUM" }

/-- The routine triage result (the initial values of the function). -/
def routineTriageResult : TriageResult :=
  { triageLevel := "routine", priority := 4
    action := "Schedule routine appointment", urgency := "LOW" }

/-- The severity rule of the triage ladder: a truthy severity equal to
severe, intense or extreme yields urgent; moderate yields moderate; anything
else falls through. -/
def triageSeverity (info : SymptomInfo) : Option TriageResult :=
  match info.severity with
  | none => none
  | some sev =>
    if sev = "" then none
    else
      let s := jsLower sev
      if s = "severe" || s = "intense" || s = "extreme" then some urgentTriageResult
      else if s = "moderate" then some moderateTriageResult
      else none

/-- First `(\d+)\s*(day|days|week|weeks|month|months)` match of the duration
text (no word boundaries in this pattern), scanning left to right. -/
def findDurationMatch : List Char → Option (Nat × String)
  | [] => none
  | c :: t =>
    let digits := (c :: t).takeWhile Char.isDigit
    if digits.isEmpty then findDurationMatch t
    else
      let afterD := (c :: t).drop digits.length
      let spaces := afterD.takeWhile isSpaceChar
      let rest2 := afterD.drop spaces.length
      match (["day", "days", "week", "weeks", "month", "months"] :
          List String).find? (fun u => ciMatches u.data (rest2.take u.data.length)) with
      | some u => some (parseNatDigits digits, u)
      | none => findDurationMatch t

/-- The duration rule of the triage ladder: a truthy duration whose first
`number unit` match is at least two weeks or any month count yields
moderate. -/
def triageDuration (info : SymptomInfo) : Option TriageResult :=
  match info.duration with
  | none => none
  | some d =>
    if d = "" then none
    else
      match findDurationMatch (jsLower d).data with
      | some (num, unit) =>
        if (strContains unit "week" && decide (2 ≤ num)) || strContains unit "month" then
          some moderateTriageResult
        else none
      | none => none

/-- The triage decision ladder: emergency keywords, then urgent keywords,
then the severity rule, then the duration rule, else routine.  The second
component records whether the process-wide emergency counter was
incremented. -/
def performTriage (message : String) (symptomInfo : SymptomInfo) : TriageResult × Bool :=
  let msg := jsLower message
  if medicalKnowledge.triageLevels.emergency.keywords.any (fun kw => strContains msg kw) then
    (emergencyTriageResult, true)
  else if medicalKnowledge.triageLevels.urgent.keywords.any (fun kw => strContains msg kw) then
    (urgentTriageResult, false)
  else
    match triageSeverity symptomInfo with
    | some r => (r, false)
    | none =>
      match triageDuration symptomInfo with
      | some r => (r, false)
      | none => (routineTriageResult, false)

/-- A directed interaction record. -/
structure Interaction where
  medication1 : String
  medication2 : String
  warning : String
deriving DecidableEq, Repr

/-- The warning string template of the interaction checker. -/
def interactionWarningText (med1 med2 warn : String) : String :=
  "⚠️ Potential interaction between " ++ med1 ++ " and " ++ med2 ++ ": " ++ warn

/-- The interaction checker: for each index pair `i < j`, look the
lower-cased `medications[i]` up in the interaction table and, if its entry
lists the lower-cased `medications[j]`, emit a record and a warning.  Only
that direction of the table is consulted. -/
def checkMedicationInteractions : List String → List Interaction × List String
  | [] => ([], [])
  | m :: rest =>
    let med1 := jsLower m
    let tailRes := checkMedicationInteractions rest
    match medicalKnowledge.medicationInteractions.find? (fun p => p.1 = med1) with
    | none => tailRes
    | some entry =>
      let pairs := (rest.map jsLower).filter (fun med2 => entry.2.interactions.contains med2)
      (pairs.map (fun med2 => { medication1 := med1, medication2 := med2, warning := entry.2.warnings }) ++ tailRes.1,
       pairs.map (fun med2 => interactionWarningText med1 med2 entry.2.warnings) ++ tailRes.2)

/-- The per-session context held by the in-process session map.  The
`medications` and `symptoms` fields model `userInfo.medications` and
`userInfo.symptoms`; `historyLen` models `conversationHistory.length`.
JavaScript `undefined` boolean fields are modelled as `false` and
`undefined`/`null` string fields as `none`. -/
structure Context where
  historyLen : Nat
  currentTopic : Option String
  askedDuration : Bool
  askedSeverity : Bool
  askedOtherSymptoms : Bool
  askedAppointmentType : Bool
  askedAppointmentDate : Bool
  askedAppointmentReason : Bool
  appointmentType : Option String
  appointmentDate : Option String
  appointmentReason : Option String
  medications : List String
  symptoms : List String
deriving DecidableEq, Repr

/-- The object returned by `handleAppointmentFlow` when it handles a turn. -/
structure FlowResult where
  response : String
  quickActions : List String
deriving DecidableEq, Repr

/-- Response asking for the appointment type (flow start). -/
def askTypeResponse (k : Nat) : String :=
  pickTemplate k chatbotResponses.appointment ++ "\n\nWhat type of appointment are you looking for?"

/-- Response acknowledging the type and asking for the date. -/
def askDateResponse (message : String) : String :=
  "Thank you! You\x27re looking for a " ++ message ++ " appointment. " ++
    "What date would work best for you? You can say things like \"tomorrow\", \"next week\", or a specific date."

/-- Response acknowledging the date and asking for the reason. -/
def askReasonResponse (message : String) : String :=
  "Great! " ++ message ++ " works. " ++
    "What is the reason for your visit? (e.g., routine checkup, specific symptoms, follow-up)"

/-- The booking summary emitted on the completing transition. -/
def summaryResponse (context : Context) (message : String) : String :=
  "Perfect! I have your appointment details:\n\n" ++
    "**Appointment Type:** " ++ optOr context.appointmentType "General" ++ "\n" ++
    "**Preferred Date:** " ++ optOr context.appointmentDate "Not specified" ++ "\n" ++
    "**Reason:** " ++ message ++ "\n\n" ++
    "To complete your booking, you can:\n" ++
    "1. Call our scheduling line at (555) 123-4567\n" ++
    "2. Visit our online portal at www.healthcareportal.com\n" ++
    "3. Use our mobile app\n\n" ++
    "Our team will confirm your appointment within 24 hours."

/-- The appointment flow controller.  Mirrors the source branch for branch:
a booking trigger while idle starts the flow; a non-trigger answer while the
type question is pending stores the type and asks for the date (a trigger
reports no transition); a pending date question stores the date and asks for
the reason; a pending reason question stores the reason, emits the summary
and atomically resets the three flags and values; otherwise, if the flow is
idle, it is started.  Returns the flow result (or `none` for "no
transition") and the updated context; every bot reply pushed onto the
history is modelled by incrementing `historyLen`. -/
def handleAppointmentFlow (message : String) (context : Context) (k : Nat) :
    Option FlowResult × Context :=
  let msg := jsLower message
  if bookingTriggers.contains msg && !context.askedAppointmentType then
    (some { response := askTypeResponse k
            quickActions := ["General Checkup", "Specialist Visit", "Follow-up", "Emergency"] },
     { context with askedAppointmentType := true, historyLen := context.historyLen + 1 })
  else if context.askedAppointmentType && !context.askedAppointmentDate then
    if !(bookingTriggers.contains msg) then
      (some { response := askDateResponse message
              quickActions := ["Tomorrow", "Next Week", "This Week", "Cancel"] },
       { context with appointmentType := some message, askedAppointmentDate := true,
                      historyLen := context.historyLen + 1 })
    else (none, context)
  else if context.askedAppointmentDate && !context.askedAppointmentReason then
    (some { response := askReasonResponse message
            quickActions := ["Routine Checkup", "Follow-up", "Symptoms", "Other"] },
     { context with appointmentDate := some message, askedAppointmentReason := true,
                    historyLen := context.historyLen + 1 })
  else if context.askedAppointmentReason then
    (some { response := summaryResponse context message
            quickActions := ["New Appointment", "View Details", "Contact Support"] },
     { context with askedAppointmentType := false, askedAppointmentDate := false,
                    askedAppointmentReason := false, appointmentType := none,
                    appointmentDate := none, appointmentReason := none,
                    historyLen := context.historyLen + 1 })
  else if !context.askedAppointmentType then
    (some { response := askTypeResponse k
            quickActions := ["General Checkup", "Specialist Visit", "Follow-up", "Emergency"] },
     { context with askedAppointmentType := true, historyLen := context.historyLen + 1 })
  else (none, context)

/-- The object returned by `generateSymptomAssessment` when the message
names a known symptom. -/
structure Assessment where
  response : String
  quickActions : List String
  triage : TriageResult
  entities : Entities
  sentiment : String
deriving DecidableEq, Repr

/-- Symptom assessment: triage the message, build the assessment response
with urgency banner, knowledge-base description, sentiment acknowledgement,
follow-up questions (setting the corresponding asked flags), numbered
recommendations and the recommended action; `none` when the message names no
known symptom. -/
def generateSymptomAssessment (message : String) (context : Context) :
    Option Assessment × Context :=
  let symptomInfo := extractSymptomInfo message
  let entities := extractEntities message
  let sentiment := analyzeSentiment message
  let triage := (performTriage message symptomInfo).1
  match symptomInfo.symptoms with
  | [] => (none, context)
  | symptom :: _ =>
    let knowledge := medicalKnowledge.commonSymptoms.find? (fun p => p.1 = symptom)
    let r0 := "I understand you\x27re experiencing " ++ symptom ++ ". "
    let r1 :=
      if triage.urgency = "CRITICAL" || triage.urgency = "HIGH" then
        r0 ++ "\n\n🚨 **URGENCY: " ++ triage.urgency ++ "**\n" ++ triage.action ++ "\n\n"
      else r0
    let r2 :=
      match knowledge with
      | some p => r1 ++ p.2.description ++ " "
      | none => r1
    let r3 := if sentiment = "negative" then r2 ++ "I understand this is concerning for you. " else r2
    let durTruthy := match symptomInfo.duration with | some d => d ≠ "" | none => false
    let sevTruthy := match symptomInfo.severity with | some s => s ≠ "" | none => false
    let step1 :=
      if !durTruthy && !context.askedDuration then
        (["How long have you been experiencing this?"], { context with askedDuration := true }, r3)
      else if durTruthy then
        (([] : List String), context, r3 ++ "You mentioned it\x27s been " ++ optToStr symptomInfo.duration ++ ". ")
      else (([] : List String), context, r3)
    let ctx1 := step1.2.1
    let step2 :=
      if !sevTruthy && !ctx1.askedSeverity then
        (["On a scale of 1-10, how would you rate the severity?"], { ctx1 with askedSeverity := true }, step1.2.2)
      else if sevTruthy then
        (([] : List String), ctx1, step1.2.2 ++ "You mentioned it\x27s " ++ optToStr symptomInfo.severity ++ ". ")
      else (([] : List String), ctx1, step1.2.2)
    let ctx2 := step2.2.1
    let step3 :=
      if !ctx2.askedOtherSymptoms then
        (["Are you experiencing any other symptoms?"], { ctx2 with askedOtherSymptoms := true })
      else (([] : List String), ctx2)
    let followUps := step1.1 ++ step2.1 ++ step3.1
    let r4 := if !followUps.isEmpty then step2.2.2 ++ String.intercalate " " followUps else step2.2.2
    let r5 :=
      match knowledge with
      | some p => r4 ++ "\n\n**General recommendations:**\n" ++ numberedJoin p.2.recommendations
      | none => r4
    let r6 := r5 ++ "\n\n**Recommended Action:** " ++ triage.action ++
      "\n\n⚠️ For proper diagnosis and treatment, please consult with a healthcare professional."
    let qa0 := ["Schedule Appointment", "Find Doctor", "More Info"]
    let qa := if triage.urgency = "CRITICAL" || triage.urgency = "HIGH" then "Call 911" :: qa0 else qa0
    (some { response := r6, quickActions := qa, triage := triage,
            entities := entities, sentiment := sentiment },
     step3.2)

/-- The triage object attached to a chat response.  The emergency fast path
returns only `urgency` and `priority`; the symptom paths return the full
`performTriage` record. -/
structure TriageOut where
  triageLevel : Option String
  priority : Option Nat
  action : Option String
  urgency : Option String
deriving DecidableEq, Repr

/-- Embed a full triage record into the response triage object. -/
def triageOutOfResult (t : TriageResult) : TriageOut :=
  { triageLevel := some t.triageLevel, priority := some t.priority
    action := some t.action, urgency := some t.urgency }

/-- The observable outcome of one `generateResponse` turn: the response
text, the quick actions, the triage object (when the turn carries one), the
updated session context, the number of notification-channel emits performed
during the turn, whether the generative hook was invoked, and the
`aiEnhanced` marker of the returned object. -/
structure GenResult where
  response : String
  quickActions : List String
  triage : Option TriageOut
  ctx : Context
  emits : Nat
  aiInvoked : Bool
  aiEnhanced : Bool
deriving DecidableEq, Repr

/-- The per-turn inputs threaded through the response pipeline: the raw
message, its lower-cased trimmed form, the extracted entities and sentiment,
the interaction warnings computed from the updated profile, the detected
intent, the availability and outcome of the generative hook, and the random
template index for this turn. -/
structure TurnData where
  userMessage : String
  message : String
  entities : Entities
  sentiment : String
  interactionWarnings : List String
  intent : String
  aiAvail : Bool
  aiR : Option String
  k : Nat

/-- The generative hook outcome as the engine sees it: `null` when the hook
is unavailable, threw, timed out, or returned an empty (falsy) string. -/
def effectiveAI (aiAvail : Bool) (aiR : Option String) : Option String :=
  if aiAvail then
    match aiR with
    | some s => if s = "" then none else some s
    | none => none
  else none

/-- Profile update at the start of a turn: union freshly extracted
medications and symptoms into the user profile (the extractor never yields
symptoms, but the update is modelled as written). -/
def updateProfile (entities : Entities) (context : Context) : Context :=
  let meds := if !entities.medications.isEmpty then dedup (context.medications ++ entities.medications) else context.medications
  let syms := if !entities.symptoms.isEmpty then dedup (context.symptoms ++ entities.symptoms) else context.symptoms
  { context with medications := meds, symptoms := syms }

/-- The turn prefix executed before any intent branch: profile update,
interaction check over the stored medication profile, push of the user turn
onto the history, and recording the detected intent as the current topic.
Returns the updated context and the interaction warnings. -/
def preprocess (userMessage : String) (context : Context) : Context × List String :=
  let entities := extractEntities userMessage
  let ctx1 := updateProfile entities context
  let warnings :=
    if 1 < ctx1.medications.length then (checkMedicationInteractions ctx1.medications).2 else []
  let intent := detectIntent userMessage
  ({ ctx1 with historyLen := ctx1.historyLen + 1, currentTopic := some intent }, warnings)

/-- Is the session mid-booking (any appointment asked flag set)? -/
def flowActive (context : Context) : Bool :=
  context.askedAppointmentType || context.askedAppointmentDate || context.askedAppointmentReason

/-- Wrap a flow-controller result as the turn outcome (the flow object is
returned to the caller as is: no triage, no emits, hook not invoked). -/
def flowGenResult (fr : FlowResult) (context : Context) : GenResult :=
  { response := fr.response, quickActions := fr.quickActions, triage := none
    ctx := context, emits := 0, aiInvoked := false, aiEnhanced := false }

/-- Quick actions keyed by intent for generative-hook responses. -/
def intentQuickActions (intent : String) : List String :=
  if intent = "greeting" then ["Check Symptoms", "Schedule Appointment", "Wellness Tips"]
  else if intent = "help" then ["Symptoms", "Appointments", "Medications", "Wellness"]
  else if intent = "appointment" then ["Book Now", "Find Doctor", "Check Availability"]
  else if intent = "medication" then ["Find Pharmacy", "Contact Doctor"]
  else if intent = "wellness" then ["Nutrition Tips", "Exercise Guide", "Sleep Advice"]
  else ["Get Help", "Find Doctor"]

/-- The final switch over intents: a hook response is used verbatim with
intent-keyed quick actions; otherwise the rule-based templates, with the
appointment case consulting the flow controller once more and the default
case using the context-aware reply for longer conversations. -/
def genStandardStage (td : TurnData) (context : Context) (aiResponse : Option String)
    (invoked : Bool) : GenResult :=
  match aiResponse with
  | some ai =>
    { response := ai, quickActions := intentQuickActions td.intent, triage := none
      ctx := { context with historyLen := context.historyLen + 1 }
      emits := 0, aiInvoked := invoked, aiEnhanced := true }
  | none =>
    if td.intent = "greeting" then
      { response := pickTemplate td.k chatbotResponses.greeting
        quickActions := ["Check Symptoms", "Schedule Appointment", "Wellness Tips"], triage := none
        ctx := { context with historyLen := context.historyLen + 1 }
        emits := 0, aiInvoked := invoked, aiEnhanced := false }
    else if td.intent = "goodbye" then
      { response := pickTemplate td.k chatbotResponses.goodbye
        quickActions := [], triage := none
        ctx := { context with historyLen := context.historyLen + 1 }
        emits := 0, aiInvoked := invoked, aiEnhanced := false }
    else if td.intent = "help" then
      { response := pickTemplate td.k chatbotResponses.help
        quickActions := ["Symptoms", "Appointments", "Medications", "Wellness"], triage := none
        ctx := { context with historyLen := context.historyLen + 1 }
        emits := 0, aiInvoked := invoked, aiEnhanced := false }
    else if td.intent = "appointment" then
      match handleAppointmentFlow td.userMessage context td.k with
      | (some fr, ctx2) =>
        { response := fr.response, quickActions := fr.quickActions, triage := none
          ctx := { ctx2 with historyLen := ctx2.historyLen + 1 }
          emits := 0, aiInvoked := invoked, aiEnhanced := false }
      | (none, ctx2) =>
        { response := pickTemplate td.k chatbotResponses.appointment
          quickActions := ["Book Now", "Find Doctor", "Check Availability"], triage := none
          ctx := { ctx2 with historyLen := ctx2.historyLen + 1 }
          emits := 0, aiInvoked := invoked, aiEnhanced := false }
    else if td.intent = "medication" then
      { response := pickTemplate td.k chatbotResponses.medication
        quickActions := ["Find Pharmacy", "Contact Doctor"], triage := none
        ctx := { context with historyLen := context.historyLen + 1 }
        emits := 0, aiInvoked := invoked, aiEnhanced := false }
    else if td.intent = "wellness" then
      { response := pickTemplate td.k chatbotResponses.wellness
        quickActions := ["Nutrition Tips", "Exercise Guide", "Sleep Advice"], triage := none
        ctx := { context with historyLen := context.historyLen + 1 }
        emits := 0, aiInvoked := invoked, aiEnhanced := false }
    else
      let resp :=
        if 2 < context.historyLen then
          "I understand. Based on our conversation about " ++ optToStr context.currentTopic ++
            ", I\x27d recommend consulting with a healthcare professional for personalized advice. Is there anything specific you\x27d like to know more about?"
        else pickTemplate td.k chatbotResponses.defaultR
      { response := resp, quickActions := ["Get Help", "Find Doctor"], triage := none
        ctx := { context with historyLen := context.historyLen + 1 }
        emits := 0, aiInvoked := invoked, aiEnhanced := false }

/-- Wellness branch: the first wellness category contained in the message
yields the numbered tips for that category. -/
def genWellnessStage (td : TurnData) (context : Context) (aiResponse : Option String)
    (invoked : Bool) : GenResult :=
  if td.intent = "wellness" then
    match medicalKnowledge.wellnessTips.find? (fun p => strContains td.message p.1) with
    | some p =>
      { response := "Here are some " ++ p.1 ++ " tips:\n\n" ++ numberedJoin p.2 ++
          "\n\nWould you like more information about " ++ p.1 ++ "?"
        quickActions := ["More Tips", "Schedule Checkup"], triage := none
        ctx := { context with historyLen := context.historyLen + 1 }
        emits := 0, aiInvoked := invoked, aiEnhanced := false }
    | none => genStandardStage td context aiResponse invoked
  else genStandardStage td context aiResponse invoked

/-- Specialty branch: the first specialty whose stem or full name is
contained in the message yields its description. -/
def genSpecialtyStage (td : TurnData) (context : Context) (aiResponse : Option String)
    (invoked : Bool) : GenResult :=
  if td.intent = "specialty" then
    match medicalKnowledge.specialties.find? (fun p =>
        strContains td.message (strRemoveFirst p.1 "ology") || strContains td.message p.1) with
    | some p =>
      { response := "A " ++ p.1 ++ " specialist focuses on " ++ p.2 ++
          ". Would you like help finding a " ++ p.1 ++ " specialist or scheduling an appointment?"
        quickActions := ["Find Specialist", "Schedule Appointment"], triage := none
        ctx := { context with historyLen := context.historyLen + 1 }
        emits := 0, aiInvoked := invoked, aiEnhanced := false }
    | none => genWellnessStage td context aiResponse invoked
  else genWellnessStage td context aiResponse invoked

/-- Medication branch: when the message itself names medications and the
pairwise check over those mentions warns, return the warning response. -/
def genMedicationStage (td : TurnData) (context : Context) (aiResponse : Option String)
    (invoked : Bool) : GenResult :=
  if td.intent = "medication" && !td.entities.medications.isEmpty then
    let ic := checkMedicationInteractions td.entities.medications
    if !ic.2.isEmpty then
      { response := pickTemplate td.k chatbotResponses.medication ++ "\n\n" ++ joinNL ic.2 ++
          "\n\n⚠️ Always consult your pharmacist or doctor about medication interactions."
        quickActions := ["Find Pharmacy", "Contact Doctor"], triage := none
        ctx := { context with historyLen := context.historyLen + 1 }
        emits := 0, aiInvoked := invoked, aiEnhanced := false }
    else genSpecialtyStage td context aiResponse invoked
  else genSpecialtyStage td context aiResponse invoked

/-- Symptom branch: with a hook response, enhance it with the urgency banner
and interaction warnings; otherwise use the rule-based assessment, falling
back to a symptom template with fixed quick actions. -/
def genSymptomStage (td : TurnData) (context : Context) (aiResponse : Option String)
    (invoked : Bool) : GenResult :=
  if td.intent = "symptom" then
    match aiResponse with
    | some ai =>
      let ac := generateSymptomAssessment td.userMessage context
      let e1 :=
        match ac.1 with
        | some a =>
          if a.triage.urgency = "CRITICAL" || a.triage.urgency = "HIGH" then
            "🚨 **URGENCY: " ++ a.triage.urgency ++ "**\n\n" ++ ai ++
              "\n\n**Recommended Action:** " ++ a.triage.action
          else ai
        | none => ai
      let e2 := if !td.interactionWarnings.isEmpty then e1 ++ "\n\n" ++ joinNL td.interactionWarnings else e1
      let e3 := e2 ++ "\n\n⚠️ For proper diagnosis and treatment, please consult with a healthcare professional."
      { response := e3, quickActions := ["Schedule Appointment", "Find Doctor", "More Info"]
        triage := ac.1.map (fun a => triageOutOfResult a.triage)
        ctx := { ac.2 with historyLen := ac.2.historyLen + 1 }
        emits := 0, aiInvoked := invoked, aiEnhanced := false }
    | none =>
      let ac := generateSymptomAssessment td.userMessage context
      match ac.1 with
      | some a =>
        let resp := if !td.interactionWarnings.isEmpty then a.response ++ "\n\n" ++ joinNL td.interactionWarnings else a.response
        let qa := if a.quickActions.isEmpty then ["Schedule Appointment", "Find Doctor", "More Info"] else a.quickActions
        { response := resp, quickActions := qa
          triage := some (triageOutOfResult a.triage)
          ctx := { ac.2 with historyLen := ac.2.historyLen + 1 }
          emits := 0, aiInvoked := invoked, aiEnhanced := false }
      | none =>
        { response := pickTemplate td.k chatbotResponses.symptoms
          quickActions := ["Schedule Appointment", "Find Doctor", "Tell Me More"], triage := none
          ctx := { ac.2 with historyLen := ac.2.historyLen + 1 }
          emits := 0, aiInvoked := invoked, aiEnhanced := false }
  else genMedicationStage td context aiResponse invoked

/-- The generative-hook attempt: reached only past the emergency check; the
hook is invoked exactly when it is available. -/
def genAIStage (td : TurnData) (context : Context) : GenResult :=
  genSymptomStage td context (effectiveAI td.aiAvail td.aiR) td.aiAvail

/-- The emergency fast path: for emergency intent, the deterministic
emergency template, a CRITICAL/priority-1 triage object, and exactly one
notification-channel emit; the generative hook is never reached. -/
def genEmergencyStage (td : TurnData) (context : Context) : GenResult :=
  if td.intent = "emergency" then
    { response := pickTemplate td.k chatbotResponses.emergency
      quickActions := ["Call 911", "Find ER"]
      triage := some { triageLevel := none, priority := some 1, action := none, urgency := some "CRITICAL" }
      ctx := { context with historyLen := context.historyLen + 1 }
      emits := 1, aiInvoked := false, aiEnhanced := false }
  else genAIStage td context

/-- The booking-trigger check performed after the in-flow check: an exact
trigger with appointment intent consults the flow controller. -/
def genAfterFlow (td : TurnData) (context : Context) : GenResult :=
  if bookingTriggers.contains td.message && td.intent = "appointment" then
    match handleAppointmentFlow td.userMessage context td.k with
    | (some fr, ctx2) =>
      if fr.response ≠ "" then flowGenResult fr ctx2 else genEmergencyStage td ctx2
    | (none, ctx2) => genEmergencyStage td ctx2
  else genEmergencyStage td context

/-- The turn data assembled at the start of a turn. -/
def mkTurnData (userMessage : String) (context : Context) (aiAvail : Bool)
    (aiR : Option String) (k : Nat) : TurnData :=
  { userMessage := userMessage
    message := jsTrim (jsLower userMessage)
    entities := extractEntities userMessage
    sentiment := analyzeSentiment userMessage
    interactionWarnings := (preprocess userMessage context).2
    intent := detectIntent userMessage
    aiAvail := aiAvail, aiR := aiR, k := k }

/-- One full turn of the response engine: preprocess, consult the
appointment flow first whenever any appointment asked flag is set, then the
booking-trigger check, the emergency fast path, the generative-hook attempt
and the intent branches.  `aiAvail`/`aiR` model the generative hook and `k`
the random template draw of the turn. -/
def generateResponse (userMessage : String) (context : Context) (aiAvail : Bool)
    (aiR : Option String) (k : Nat) : GenResult :=
  let td := mkTurnData userMessage context aiAvail aiR k
  let ctx1 := (preprocess userMessage context).1
  if flowActive ctx1 then
    match handleAppointmentFlow userMessage ctx1 k with
    | (some fr, ctx2) => if fr.response ≠ "" then flowGenResult fr ctx2 else genAfterFlow td ctx2
    | (none, ctx2) => genAfterFlow td ctx2
  else genAfterFlow td ctx1

/-- The metadata record persisted to the session store by `updateSession`
during the appointment flow and at turn end. -/
structure DBSessionMeta where
  currentTopic : Option String
  askedDuration : Bool
  askedSeverity : Bool
  askedOtherSymptoms : Bool
  askedAppointmentType : Bool
  askedAppointmentDate : Bool
  askedAppointmentReason : Bool
  appointmentType : Option String
  appointmentDate : Option String
  appointmentReason : Option String
deriving DecidableEq, Repr

/-- Context hydration on a cold read (both the startup sync and the lazy
load inside `generateResponse`): the code restores `currentTopic`,
`askedDuration`, `askedSeverity` and `askedOtherSymptoms` from the persisted
metadata but reads none of the appointment fields, so those come back as
JavaScript `undefined` — modelled as `false`/`none`. -/
def hydrateSessionContext (meta : DBSessionMeta) (msgCount : Nat)
    (medications symptoms : List String) : Context :=
  { historyLen := msgCount
    currentTopic := meta.currentTopic
    askedDuration := meta.askedDuration
    askedSeverity := meta.askedSeverity
    askedOtherSymptoms := meta.askedOtherSymptoms
    askedAppointmentType := false
    askedAppointmentDate := false
    askedAppointmentReason := false
    appointmentType := none
    appointmentDate := none
    appointmentReason := none
    medications := medications
    symptoms := symptoms }

/-- Does the lower-cased message contain any configured emergency keyword? -/
def hasEmergencyKeyword (message : String) : Bool :=
  medicalKnowledge.triageLevels.emergency.keywords.any (fun kw => strContains (jsLower message) kw)

/-- Does the lower-cased message contain any configured urgent keyword? -/
def hasUrgentKeyword (message : String) : Bool :=
  medicalKnowledge.triageLevels.urgent.keywords.any (fun kw => strContains (jsLower message) kw)

/-- The appointment part of a context is in its initial (Idle) state. -/
def appointmentIdle (c : Context) : Prop :=
  c.askedAppointmentType = false ∧ c.askedAppointmentDate = false ∧
    c.askedAppointmentReason = false ∧ c.appointmentType = none ∧
    c.appointmentDate = none ∧ c.appointmentReason = none

/-- A freshly initialised session context. -/
def idleCtx : Context :=
  { historyLen := 0, currentTopic := none, askedDuration := false, askedSeverity := false
    askedOtherSymptoms := false, askedAppointmentType := false, askedAppointmentDate := false
    askedAppointmentReason := false, appointmentType := none, appointmentDate := none
    appointmentReason := none, medications := [], symptoms := [] }

/-- A session whose type question is pending (mid-booking). -/
def midFlowCtx : Context :=
  { idleCtx with askedAppointmentType := true, historyLen := 2 }

/-- Persisted session metadata with a booking in progress, as `updateSession`
writes it after the flow asked the type question. -/
def lostBookingMeta : DBSessionMeta :=
  { currentTopic := some "appointment", askedDuration := false, askedSeverity := false
    askedOtherSymptoms := false, askedAppointmentType := true, askedAppointmentDate := false
    askedAppointmentReason := false, appointmentType := some "General Checkup"
    appointmentDate := none, appointmentReason := none }

/-- Number of occurrences of `pat` (at distinct positions) in a list. -/
def countOccurrencesList (pat : List Char) : List Char → Nat
  | [] => 0
  | c :: t => (if pat.isPrefixOf (c :: t) then 1 else 0) + countOccurrencesList pat t

/-- Number of occurrences of `w` in `s`. -/
def countOccurrences (s w : String) : Nat :=
  countOccurrencesList w.data s.data

/-- Modelled from the spec\x27s words for claim C10: the sentiment score is
the count of ALL occurrences of positive lexicon words minus the count of
all occurrences of negative lexicon words, so repeated occurrences of the
same lexicon word each contribute.  For comparison with `analyzeSentiment`
(which scores word presence, not occurrences). -/
def sentimentSpecOccurrences (message : String) : String :=
  let msg := jsLower message
  let score : Int :=
    ((positiveWords.map (fun w => countOccurrences msg w)).sum : Int) -
      ((negativeWords.map (fun w => countOccurrences msg w)).sum : Int)
  if score > 0 then "positive" else if score < 0 then "negative" else "neutral"

/-- The amended sentiment specification: score is the number of positive
lexicon words the lower-cased message contains minus the number of negative
lexicon words it contains (each lexicon word counted at most once). -/
def sentimentSpecPresence (message : String) : String :=
  let msg := jsLower message
  let score : Int :=
    ((positiveWords.filter (fun w => strContains msg w)).length : Int) -
      ((negativeWords.filter (fun w => strContains msg w)).length : Int)
  if score > 0 then "positive" else if score < 0 then "negative" else "neutral"

theorem ne_empty_of_left (s t : String) (h : s ≠ "") : s ++ t ≠ "" := by
  intro he
  apply h
  apply String.ext
  have hd : (s ++ t).data = [] := by rw [he]
  rw [String.data_append] at hd
  exact (List.append_eq_nil.mp hd).1

theorem ne_empty_of_right (s t : String) (h : t ≠ "") : s ++ t ≠ "" := by
  intro he
  apply h
  apply String.ext
  have hd : (s ++ t).data = [] := by rw [he]
  rw [String.data_append] at hd
  exact (List.append_eq_nil.mp hd).2

theorem askTypeResponse_ne_empty (k : Nat) : askTypeResponse k ≠ "" := by
  unfold askTypeResponse
  exact ne_empty_of_right _ _ (by decide)

theorem askDateResponse_ne_empty (msg : String) : askDateResponse msg ≠ "" := by
  unfold askDateResponse
  repeat apply ne_empty_of_left
  decide

theorem askReasonResponse_ne_empty (msg : String) : askReasonResponse msg ≠ "" := by
  unfold askReasonResponse
  repeat apply ne_empty_of_left
  decide

theorem summaryResponse_ne_empty (c : Context) (msg : String) : summaryResponse c msg ≠ "" := by
  unfold summaryResponse
  repeat apply ne_empty_of_left
  decide

theorem pickTemplate_mem (k : Nat) (l : List String) (h : l ≠ []) : pickTemplate k l ∈ l := by
  unfold pickTemplate
  have hpos : 0 < l.length := List.length_pos.mpr h
  have hlt : k % l.length < l.length := Nat.mod_lt _ hpos
  rw [List.getD_eq_getElem _ _ hlt]
  exact List.getElem_mem _

theorem preprocess_askedAppointmentType (m : String) (c : Context) :
    (preprocess m c).1.askedAppointmentType = c.askedAppointmentType := rfl

theorem preprocess_askedAppointmentDate (m : String) (c : Context) :
    (preprocess m c).1.askedAppointmentDate = c.askedAppointmentDate := rfl

theorem preprocess_askedAppointmentReason (m : String) (c : Context) :
    (preprocess m c).1.askedAppointmentReason = c.askedAppointmentReason := rfl

theorem preprocess_appointmentType (m : String) (c : Context) :
    (preprocess m c).1.appointmentType = c.appointmentType := rfl

theorem preprocess_appointmentDate (m : String) (c : Context) :
    (preprocess m c).1.appointmentDate = c.appointmentDate := rfl

theorem preprocess_appointmentReason (m : String) (c : Context) :
    (preprocess m c).1.appointmentReason = c.appointmentReason := rfl

theorem flowActive_preprocess (m : String) (c : Context) :
    flowActive (preprocess m c).1 = flowActive c := rfl

theorem mkTurnData_message (m : String) (c : Context) (aA : Bool) (aR : Option String) (k : Nat) :
    (mkTurnData m c aA aR k).message = jsTrim (jsLower m) := rfl

theorem mkTurnData_intent (m : String) (c : Context) (aA : Bool) (aR : Option String) (k : Nat) :
    (mkTurnData m c aA aR k).intent = detectIntent m := rfl

theorem flow_start_trigger (msg : String) (c : Context) (k : Nat)
    (ht : bookingTriggers.contains (jsLower msg) = true)
    (hA : c.askedAppointmentType = false) :
    handleAppointmentFlow msg c k =
      (some { response := askTypeResponse k
              quickActions := ["General Checkup", "Specialist Visit", "Follow-up", "Emergency"] },
       { c with askedAppointmentType := true, historyLen := c.historyLen + 1 }) := by
  have hm : jsLower msg ∈ bookingTriggers := by simpa using ht
  simp [handleAppointmentFlow, hm, hA]

theorem flow_from_idle (msg : String) (c : Context) (k : Nat)
    (hA : c.askedAppointmentType = false) (hB : c.askedAppointmentDate = false)
    (hC : c.askedAppointmentReason = false) :
    handleAppointmentFlow msg c k =
      (some { response := askTypeResponse k
              quickActions := ["General Checkup", "Specialist Visit", "Follow-up", "Emergency"] },
       { c with askedAppointmentType := true, historyLen := c.historyLen + 1 }) := by
  by_cases hm : jsLower msg ∈ bookingTriggers
  · simp [handleAppointmentFlow, hm, hA]
  · simp [handleAppointmentFlow, hm, hA, hB, hC]

theorem flow_answer_type (msg : String) (c : Context) (k : Nat)
    (hA : c.askedAppointmentType = true) (hB : c.askedAppointmentDate = false)
    (ht : bookingTriggers.contains (jsLower msg) = false) :
    handleAppointmentFlow msg c k =
      (some { response := askDateResponse msg
              quickActions := ["Tomorrow", "Next Week", "This Week", "Cancel"] },
       { c with appointmentType := some msg, askedAppointmentDate := true,
                historyLen := c.historyLen + 1 }) := by
  have hm : jsLower msg ∉ bookingTriggers := by simpa using ht
  simp [handleAppointmentFlow, hm, hA, hB]

theorem flow_trigger_guard (msg : String) (c : Context) (k : Nat)
    (hA : c.askedAppointmentType = true) (hB : c.askedAppointmentDate = false)
    (ht : bookingTriggers.contains (jsLower msg) = true) :
    handleAppointmentFlow msg c k = (none, c) := by
  have hm : jsLower msg ∈ bookingTriggers := by simpa using ht
  simp [handleAppointmentFlow, hm, hA, hB]

theorem flow_answer_date (msg : String) (c : Context) (k : Nat)
    (hA : c.askedAppointmentType = true) (hB : c.askedAppointmentDate = true)
    (hC : c.askedAppointmentReason = false) :
    handleAppointmentFlow msg c k =
      (some { response := askReasonResponse msg
              quickActions := ["Routine Checkup", "Follow-up", "Symptoms", "Other"] },
       { c with appointmentDate := some msg, askedAppointmentReason := true,
                historyLen := c.historyLen + 1 }) := by
  simp [handleAppointmentFlow, hA, hB, hC]

theorem flow_answer_reason (msg : String) (c : Context) (k : Nat)
    (hA : c.askedAppointmentType = true) (hB : c.askedAppointmentDate = true)
    (hC : c.askedAppointmentReason = true) :
    handleAppointmentFlow msg c k =
      (some { response := summaryResponse c msg
              quickActions := ["New Appointment", "View Details", "Contact Support"] },
       { c with askedAppointmentType := false, askedAppointmentDate := false,
                askedAppointmentReason := false, appointmentType := none,
                appointmentDate := none, appointmentReason := none,
                historyLen := c.historyLen + 1 }) := by
  simp [handleAppointmentFlow, hA, hB, hC]

theorem generateResponse_notInFlow (msg : String) (c : Context) (aA : Bool)
    (aR : Option String) (k : Nat) (h : flowActive c = false) :
    generateResponse msg c aA aR k =
      genAfterFlow (mkTurnData msg c aA aR k) (preprocess msg c).1 := by
  simp only [generateResponse]
  rw [flowActive_preprocess, h]
  simp

theorem generateResponse_inflow_some (msg : String) (c : Context) (aA : Bool)
    (aR : Option String) (k : Nat) (fr : FlowResult) (c2 : Context)
    (h : flowActive c = true)
    (hflow : handleAppointmentFlow msg (preprocess msg c).1 k = (some fr, c2))
    (hne : fr.response ≠ "") :
    generateResponse msg c aA aR k = flowGenResult fr c2 := by
  simp only [generateResponse]
  rw [flowActive_preprocess, h, hflow]
  simp [hne]

theorem generateResponse_inflow_none (msg : String) (c : Context) (aA : Bool)
    (aR : Option String) (k : Nat) (c2 : Context)
    (h : flowActive c = true)
    (hflow : handleAppointmentFlow msg (preprocess msg c).1 k = (none, c2)) :
    generateResponse msg c aA aR k = genAfterFlow (mkTurnData msg c aA aR k) c2 := by
  simp only [generateResponse]
  rw [flowActive_preprocess, h, hflow]
  simp

theorem foldl_count_pos (p : String → Bool) (l : List String) (a : Int) :
    l.foldl (fun s w => if p w then s + 1 else s) a = a + ((l.filter p).length : Int) := by
  induction l generalizing a with
  | nil => simp
  | cons hd tl ih =>
    by_cases hp : p hd
    · simp only [List.foldl_cons, hp, if_true, ih, List.filter_cons, List.length_cons]
      push_cast
      ring
    · simp [List.foldl_cons, hp, ih, List.filter_cons]

theorem foldl_count_neg (p : String → Bool) (l : List String) (a : Int) :
    l.foldl (fun s w => if p w then s - 1 else s) a = a - ((l.filter p).length : Int) := by
  induction l generalizing a with
  | nil => simp
  | cons hd tl ih =>
    by_cases hp : p hd
    · simp only [List.foldl_cons, hp, if_true, ih, List.filter_cons, List.length_cons]
      push_cast
      ring
    · simp [List.foldl_cons, hp, ih, List.filter_cons]

/-- C10 (amended): `analyzeSentiment` lower-cases the text and scores it as
the number of positive lexicon words the text contains minus the number of
negative lexicon words it contains — each lexicon word contributes at most
once, regardless of how often it occurs — returning positive when the score
is positive, negative when negative, and neutral otherwise; in particular
the three example classifications hold. -/
theorem c10_sentiment_presence_and_examples (message : String) :
    analyzeSentiment message = sentimentSpecPresence message ∧
    analyzeSentiment "I feel great today" = "positive" ∧
    analyzeSentiment "I have pain and I\x27m scared" = "negative" ∧
    analyzeSentiment "I have a question" = "neutral" := by
  refine ⟨?_, by decide, by decide, by decide⟩
  simp only [analyzeSentiment, sentimentSpecPresence]
  rw [foldl_count_pos, foldl_count_neg]
  simp

/-- C10 counterexample: on `"bad bad bad good great"` the code returns
positive (word presence: two positive words, one negative word) while the
claim\x27s per-occurrence scoring would give negative (two positive
occurrences, three negative occurrences), so repeated occurrences do not
each contribute. -/
theorem c10_counterexample :
    analyzeSentiment "bad bad bad good great" = "positive" ∧
    sentimentSpecOccurrences "bad bad bad good great" = "negative" := by decide

/-- C2: any configured emergency keyword in the message forces the triage
result to emergency, priority 1, CRITICAL, whatever the severity and
duration values are; in particular the result is never the urgent one, so
keyword classification is not downgraded by later ladder rules. -/
theorem c2_emergency_keyword_triage (msg : String) (info : SymptomInfo)
    (h : hasEmergencyKeyword msg = true) :
    (performTriage msg info).1 = emergencyTriageResult ∧
    (performTriage msg info).1.triageLevel = "emergency" ∧
    (performTriage msg info).1.priority = 1 ∧
    (performTriage msg info).1.urgency = "CRITICAL" ∧
    (performTriage msg info).1 ≠ urgentTriageResult := by
  have hcond : (medicalKnowledge.triageLevels.emergency.keywords.any
      (fun kw => strContains (jsLower msg) kw)) = true := h
  have hmain : performTriage msg info = (emergencyTriageResult, true) := by
    simp only [performTriage, hcond, if_true]
  rw [hmain]
  exact ⟨rfl, rfl, rfl, rfl, by decide⟩

/-- C2 witness: a message carrying both an emergency and an urgent keyword
together with severe severity and a long duration still triages emergency. -/
theorem c2_witness :
    (performTriage "severe chest pain and high fever"
      { symptoms := [], duration := some "3 weeks", severity := some "severe" }).1 =
      emergencyTriageResult :=
  (c2_emergency_keyword_triage "severe chest pain and high fever"
    { symptoms := [], duration := some "3 weeks", severity := some "severe" } (by decide)).1

/-- C4 counterexample: the configured actions differ from the claimed
strings — the emergency action the code returns is `"Call 911 immediately"`,
not `"contact emergency services immediately"`, and the routine action is
`"Schedule routine appointment"`, not `"schedule a routine appointment"`. -/
theorem c4_counterexample :
    (performTriage "I have chest pain" { symptoms := [], duration := none, severity := none }).1.action ≠
      "contact emergency services immediately" ∧
    (performTriage "I have chest pain" { symptoms := [], duration := none, severity := none }).1.action =
      "Call 911 immediately" ∧
    (performTriage "just a question" { symptoms := [], duration := none, severity := none }).1.action ≠
      "schedule a routine appointment" ∧
    (performTriage "just a question" { symptoms := [], duration := none, severity := none }).1.action =
      "Schedule routine appointment" := by decide

/-- C4 (amended): an emergency keyword makes `performTriage` return the
emergency result with action `"Call 911 immediately"` and increments the
process-wide emergency counter; when no emergency keyword, no urgent
keyword, no severity rule and no duration rule matches, it returns the
routine result with priority 4, urgency LOW and action
`"Schedule routine appointment"`, without touching the counter. -/
theorem c4_triage_actions_and_counter (msg : String) (info : SymptomInfo) :
    (hasEmergencyKeyword msg = true →
      performTriage msg info = (emergencyTriageResult, true) ∧
      (performTriage msg info).1.action = "Call 911 immediately") ∧
    (hasEmergencyKeyword msg = false → hasUrgentKeyword msg = false →
      triageSeverity info = none → triageDuration info = none →
      performTriage msg info = (routineTriageResult, false) ∧
      (performTriage msg info).1.priority = 4 ∧
      (performTriage msg info).1.urgency = "LOW" ∧
      (performTriage msg info).1.action = "Schedule routine appointment") := by
  constructor
  · intro hE
    have hmain : performTriage msg info = (emergencyTriageResult, true) := by
      simp only [performTriage, show (medicalKnowledge.triageLevels.emergency.keywords.any
        (fun kw => strContains (jsLower msg) kw)) = true from hE, if_true]
    exact ⟨hmain, by rw [hmain]; rfl⟩

  · intro hE hU hS hD
    have hmain : performTriage msg info = (routineTriageResult, false) := by
      simp only [performTriage, show (medicalKnowledge.triageLevels.emergency.keywords.any
          (fun kw => strContains (jsLower msg) kw)) = false from hE,
        show (medicalKnowledge.triageLevels.urgent.keywords.any
          (fun kw => strContains (jsLower msg) kw)) = false from hU,
        hS, hD]
      rfl
    rw [hmain]
    exact ⟨rfl, rfl, rfl, rfl⟩

/-- C4 witness: the emergency side at `"I have chest pain"` and the routine
side at `"just a question"`. -/
theorem c4_witness :
    performTriage "I have chest pain" { symptoms := [], duration := none, severity := none } =
      (emergencyTriageResult, true) ∧
    performTriage "just a question" { symptoms := [], duration := none, severity := none } =
      (routineTriageResult, false) :=
  ⟨((c4_triage_actions_and_counter "I have chest pain"
      { symptoms := [], duration := none, severity := none }).1 (by decide)).1,
   ((c4_triage_actions_and_counter "just a question"
      { symptoms := [], duration := none, severity := none }).2
      (by decide) (by decide) (by decide) (by decide)).1⟩

/-- C5 counterexample: the interaction table entry for warfarin lists
vitamin k, so the claim requires `["vitamin k", "warfarin"]` to warn, but
the checker consults only the earlier medication\x27s entry and returns no
interaction and no warning for that list (while the reversed order warns). -/
theorem c5_counterexample :
    (medicalKnowledge.medicationInteractions.find? (fun p => p.1 = "warfarin")).map
      (fun e => e.2.interactions.contains "vitamin k") = some true ∧
    checkMedicationInteractions ["vitamin k", "warfarin"] = ([], []) ∧
    (checkMedicationInteractions ["warfarin", "vitamin k"]).2 ≠ [] := by decide

/-- C5 (amended): for every ordered pair `i < j` of the medication list, if
the interaction table has an entry for the lower-cased `medications[i]` and
that entry lists the lower-cased `medications[j]`, then the checker emits
the corresponding warning string and directed interaction record.  Only this
direction is consulted: the entry for `medications[j]` is never checked
against `medications[i]`, so `["vitamin k", "warfarin"]` yields no warning. -/
theorem c5_forward_interaction (meds : List String) (i j : Nat)
    (hij : i < j) (hi : i < meds.length) (hj : j < meds.length)
    (entry : String × MedInfo)
    (hfind : medicalKnowledge.medicationInteractions.find?
        (fun p => p.1 = jsLower (meds.get ⟨i, hi⟩)) = some entry)
    (hlists : entry.2.interactions.contains (jsLower (meds.get ⟨j, hj⟩)) = true) :
    interactionWarningText (jsLower (meds.get ⟨i, hi⟩)) (jsLower (meds.get ⟨j, hj⟩))
        entry.2.warnings ∈ (checkMedicationInteractions meds).2 ∧
    ({ medication1 := jsLower (meds.get ⟨i, hi⟩), medication2 := jsLower (meds.get ⟨j, hj⟩),
       warning := entry.2.warnings } : Interaction) ∈ (checkMedicationInteractions meds).1 := by
  induction meds generalizing i j with
  | nil => exact absurd hi (by simp)
  | cons m rest ih =>
    cases i with
    | zero =>
      cases j with
      | zero => omega
      | succ j' =>
        have hj' : j' < rest.length := by simpa using hj
        have hfind' : medicalKnowledge.medicationInteractions.find?
            (fun p => p.1 = jsLower m) = some entry := hfind
        have hlists' : entry.2.interactions.contains (jsLower (rest.get ⟨j', hj'⟩)) = true :=
          hlists
        have hmem : jsLower (rest.get ⟨j', hj'⟩) ∈
            (rest.map jsLower).filter (fun med2 => entry.2.interactions.contains med2) :=
          List.mem_filter.mpr ⟨List.mem_map_of_mem _ (List.get_mem _ _ _), hlists'⟩
        have hkey : checkMedicationInteractions (m :: rest) =
            (((rest.map jsLower).filter (fun med2 => entry.2.interactions.contains med2)).map
                (fun med2 => { medication1 := jsLower m, medication2 := med2,
                               warning := entry.2.warnings }) ++
              (checkMedicationInteractions rest).1,
             ((rest.map jsLower).filter (fun med2 => entry.2.interactions.contains med2)).map
                (fun med2 => interactionWarningText (jsLower m) med2 entry.2.warnings) ++
              (checkMedicationInteractions rest).2) := by
          simp only [checkMedicationInteractions, hfind']
        constructor
        · show interactionWarningText (jsLower m) (jsLower (rest.get ⟨j', hj'⟩))
            entry.2.warnings ∈ (checkMedicationInteractions (m :: rest)).2
          rw [hkey]
          exact List.mem_append_left _ (List.mem_map_of_mem _ hmem)
        · show ({ medication1 := jsLower m, medication2 := jsLower (rest.get ⟨j', hj'⟩), warning := entry.2.warnings } : Interaction) ∈ (checkMedicationInteractions (m :: rest)).1
          rw [hkey]
          exact List.mem_append_left _ (List.mem_map_of_mem _ hmem)
    | succ i' =>
      cases j with
      | zero => omega
      | succ j' =>
        have hi' : i' < rest.length := by simpa using hi
        have hj' : j' < rest.length := by simpa using hj
        have hij' : i' < j' := by omega
        have hfind' : medicalKnowledge.medicationInteractions.find?
            (fun p => p.1 = jsLower (rest.get ⟨i', hi'⟩)) = some entry := hfind
        have hlists' : entry.2.interactions.contains (jsLower (rest.get ⟨j', hj'⟩)) = true :=
          hlists
        have ihres := ih i' j' hij' hi' hj' hfind' hlists'
        have hgoal :
            interactionWarningText (jsLower (rest.get ⟨i', hi'⟩)) (jsLower (rest.get ⟨j', hj'⟩))
              entry.2.warnings ∈ (checkMedicationInteractions (m :: rest)).2 ∧
            ({ medication1 := jsLower (rest.get ⟨i', hi'⟩),
               medication2 := jsLower (rest.get ⟨j', hj'⟩),
               warning := entry.2.warnings } : Interaction) ∈
              (checkMedicationInteractions (m :: rest)).1 := by
          cases hf : medicalKnowledge.medicationInteractions.find? (fun p => p.1 = jsLower m) with
          | none =>
            have hkey : checkMedicationInteractions (m :: rest) =
                checkMedicationInteractions rest := by
              simp only [checkMedicationInteractions, hf]
            rw [hkey]
            exact ihres
          | some e =>
            have hkey : checkMedicationInteractions (m :: rest) =
                (((rest.map jsLower).filter (fun med2 => e.2.interactions.contains med2)).map
                    (fun med2 => { medication1 := jsLower m, medication2 := med2,
                                   warning := e.2.warnings }) ++
                  (checkMedicationInteractions rest).1,
                 ((rest.map jsLower).filter (fun med2 => e.2.interactions.contains med2)).map
                    (fun med2 => interactionWarningText (jsLower m) med2 e.2.warnings) ++
                  (checkMedicationInteractions rest).2) := by
              simp only [checkMedicationInteractions, hf]
            rw [hkey]
            exact ⟨List.mem_append_right _ ihres.1, List.mem_append_right _ ihres.2⟩
        exact hgoal

/-- C5 witness: `["aspirin", "warfarin"]` produces the aspirin-warfarin
bleeding-risk warning and record (the spec\x27s own example pair). -/
theorem c5_witness :
    interactionWarningText "aspirin" "warfarin"
        "May increase bleeding risk when combined with blood thinners" ∈
      (checkMedicationInteractions ["aspirin", "warfarin"]).2 ∧
    ({ medication1 := "aspirin", medication2 := "warfarin",
       warning := "May increase bleeding risk when combined with blood thinners" } : Interaction) ∈
      (checkMedicationInteractions ["aspirin", "warfarin"]).1 :=
  c5_forward_interaction ["aspirin", "warfarin"] 0 1 (by decide) (by decide) (by decide)
    ("aspirin", { interactions := ["warfarin", "ibuprofen", "naproxen"]
                  warnings := "May increase bleeding risk when combined with blood thinners" })
    (by decide) (by decide)

/-- C9: hydration on a cold read drops the persisted appointment state.
With metadata recording a pending type question (`askedAppointmentType`
true, a stored type), the hydrated context comes back with every appointment
asked flag false and every appointment value cleared, while the three
symptom asked flags are restored; consequently the next turn is not treated
as mid-booking (the flow is inactive and a date-like reply is not consumed
as an answer), contradicting the invariant that a true asked flag survives
until its topic resets. -/
theorem c9_hydration_drops_appointment_state :
    lostBookingMeta.askedAppointmentType = true ∧
    lostBookingMeta.appointmentType = some "General Checkup" ∧
    (hydrateSessionContext lostBookingMeta 4 [] []).askedAppointmentType = false ∧
    (hydrateSessionContext lostBookingMeta 4 [] []).appointmentType = none ∧
    (hydrateSessionContext lostBookingMeta 4 [] []).askedDuration = lostBookingMeta.askedDuration ∧
    (hydrateSessionContext lostBookingMeta 4 [] []).askedSeverity = lostBookingMeta.askedSeverity ∧
    (hydrateSessionContext lostBookingMeta 4 [] []).askedOtherSymptoms =
      lostBookingMeta.askedOtherSymptoms ∧
    flowActive (hydrateSessionContext lostBookingMeta 4 [] []) = false ∧
    (generateResponse "Tomorrow" (hydrateSessionContext lostBookingMeta 4 [] [])
      false none 0).ctx.appointmentType = none ∧
    (generateResponse "Tomorrow" (hydrateSessionContext lostBookingMeta 4 [] [])
      false none 0).ctx.askedAppointmentDate = false := by decide

theorem hasEmergencyKeyword_not_trigger (msg : String) (h : hasEmergencyKeyword msg = true) :
    bookingTriggers.contains (jsLower msg) = false := by
  cases hct : bookingTriggers.contains (jsLower msg) with
  | false => rfl
  | true =>
    exfalso
    have hmem : jsLower msg ∈ bookingTriggers := by simpa using hct
    simp only [bookingTriggers, List.mem_cons, List.not_mem_nil, or_false] at hmem
    unfold hasEmergencyKeyword at h
    rcases hmem with h1 | h1 | h1 | h1 | h1 <;>
      (rw [h1] at h; exact absurd h (by decide))

theorem flow_consumes (msg : String) (c : Context) (k : Nat)
    (hact : flowActive c = true)
    (ht : bookingTriggers.contains (jsLower msg) = false) :
    ∃ fr, (handleAppointmentFlow msg c k).1 = some fr ∧ fr.response ≠ "" := by
  have hm : jsLower msg ∉ bookingTriggers := by simpa using ht
  cases hA : c.askedAppointmentType with
  | true =>
    cases hB : c.askedAppointmentDate with
    | false =>
      rw [flow_answer_type msg c k hA hB ht]
      exact ⟨_, rfl, askDateResponse_ne_empty msg⟩
    | true =>
      cases hC : c.askedAppointmentReason with
      | false =>
        rw [flow_answer_date msg c k hA hB hC]
        exact ⟨_, rfl, askReasonResponse_ne_empty msg⟩
      | true =>
        rw [flow_answer_reason msg c k hA hB hC]
        exact ⟨_, rfl, summaryResponse_ne_empty c msg⟩
  | false =>
    cases hB : c.askedAppointmentDate with
    | true =>
      cases hC : c.askedAppointmentReason with
      | false =>
        have hkey : handleAppointmentFlow msg c k =
            (some { response := askReasonResponse msg
                    quickActions := ["Routine Checkup", "Follow-up", "Symptoms", "Other"] },
             { c with appointmentDate := some msg, askedAppointmentReason := true,
                      historyLen := c.historyLen + 1 }) := by
          simp [handleAppointmentFlow, hm, hA, hB, hC]
        rw [hkey]
        exact ⟨_, rfl, askReasonResponse_ne_empty msg⟩
      | true =>
        have hkey : handleAppointmentFlow msg c k =
            (some { response := summaryResponse c msg
                    quickActions := ["New Appointment", "View Details", "Contact Support"] },
             { c with askedAppointmentType := false, askedAppointmentDate := false,
                      askedAppointmentReason := false, appointmentType := none,
                      appointmentDate := none, appointmentReason := none,
                      historyLen := c.historyLen + 1 }) := by
          simp [handleAppointmentFlow, hm, hA, hB, hC]
        rw [hkey]
        exact ⟨_, rfl, summaryResponse_ne_empty c msg⟩
    | false =>
      cases hC : c.askedAppointmentReason with
      | true =>
        have hkey : handleAppointmentFlow msg c k =
            (some { response := summaryResponse c msg
                    quickActions := ["New Appointment", "View Details", "Contact Support"] },
             { c with askedAppointmentType := false, askedAppointmentDate := false,
                      askedAppointmentReason := false, appointmentType := none,
                      appointmentDate := none, appointmentReason := none,
                      historyLen := c.historyLen + 1 }) := by
          simp [handleAppointmentFlow, hm, hA, hB, hC]
        rw [hkey]
        exact ⟨_, rfl, summaryResponse_ne_empty c msg⟩
      | false =>
        exfalso
        rw [flowActive, hA, hB, hC] at hact
        simp at hact

/-- C1 (amended): when any appointment asked flag is set, a user message
containing an emergency keyword is consumed by the appointment flow as the
pending answer — the turn returns the flow controller\x27s response and its
updated context (which advances the flags and stores the message as the
pending value) — and the emergency fast path is not taken: no emergency
alert is emitted, no triage object is returned, and the generative hook is
not invoked.  The flow pre-empts the emergency path, not the other way
around. -/
theorem c1_flow_preempts_emergency (msg : String) (c : Context) (aA : Bool)
    (aR : Option String) (k : Nat)
    (hact : flowActive c = true) (hkw : hasEmergencyKeyword msg = true) :
    (generateResponse msg c aA aR k).emits = 0 ∧
    (generateResponse msg c aA aR k).aiInvoked = false ∧
    (generateResponse msg c aA aR k).triage = none ∧
    (generateResponse msg c aA aR k).ctx = (handleAppointmentFlow msg (preprocess msg c).1 k).2 ∧
    ∃ fr, (handleAppointmentFlow msg (preprocess msg c).1 k).1 = some fr ∧
      (generateResponse msg c aA aR k).response = fr.response ∧
      (generateResponse msg c aA aR k).quickActions = fr.quickActions := by
  have ht := hasEmergencyKeyword_not_trigger msg hkw
  have hact1 : flowActive (preprocess msg c).1 = true := by
    rw [flowActive_preprocess]; exact hact
  obtain ⟨fr, hfr, hne⟩ := flow_consumes msg (preprocess msg c).1 k hact1 ht
  have hpair : handleAppointmentFlow msg (preprocess msg c).1 k =
      (some fr, (handleAppointmentFlow msg (preprocess msg c).1 k).2) := by
    rw [← hfr]
  have hgen := generateResponse_inflow_some msg c aA aR k fr
    (handleAppointmentFlow msg (preprocess msg c).1 k).2 hact hpair hne
  rw [hgen]
  exact ⟨rfl, rfl, rfl, rfl, fr, hfr, rfl, rfl⟩

/-- C1 witness: a mid-booking session (type question pending) receiving
`"I have chest pain"` is handled by the flow, with no alert and no triage. -/
theorem c1_witness :
    (generateResponse "I have chest pain" midFlowCtx false none 0).emits = 0 ∧
    (generateResponse "I have chest pain" midFlowCtx false none 0).aiInvoked = false ∧
    (generateResponse "I have chest pain" midFlowCtx false none 0).triage = none ∧
    (generateResponse "I have chest pain" midFlowCtx false none 0).ctx =
      (handleAppointmentFlow "I have chest pain" (preprocess "I have chest pain" midFlowCtx).1 0).2 ∧
    ∃ fr, (handleAppointmentFlow "I have chest pain"
        (preprocess "I have chest pain" midFlowCtx).1 0).1 = some fr ∧
      (generateResponse "I have chest pain" midFlowCtx false none 0).response = fr.response ∧
      (generateResponse "I have chest pain" midFlowCtx false none 0).quickActions =
        fr.quickActions :=
  c1_flow_preempts_emergency "I have chest pain" midFlowCtx false none 0 (by decide) (by decide)

/-- C1 counterexample: with the type question pending, the emergency-keyword
message `"I have chest pain"` has emergency intent, yet the turn emits no
alert, returns no CRITICAL triage, advances `askedAppointmentDate` to true
and stores the message itself as the appointment type — the asked flags and
stored values do not stay unchanged and the emergency fast path is not
taken. -/
theorem c1_counterexample :
    detectIntent "I have chest pain" = "emergency" ∧
    midFlowCtx.askedAppointmentDate = false ∧
    midFlowCtx.appointmentType = none ∧
    (generateResponse "I have chest pain" midFlowCtx false none 0).ctx.askedAppointmentDate = true ∧
    (generateResponse "I have chest pain" midFlowCtx false none 0).ctx.appointmentType =
      some "I have chest pain" ∧
    (generateResponse "I have chest pain" midFlowCtx false none 0).emits = 0 ∧
    (generateResponse "I have chest pain" midFlowCtx false none 0).triage = none := by decide

/-- C3 (amended): a message classified as emergency intent and processed
while the session is not mid-booking (no appointment asked flag set) takes
the deterministic emergency path: the generative hook is never invoked, the
response is the deterministic emergency template for the turn\x27s draw, the
returned triage carries urgency CRITICAL and priority 1, and exactly one
notification-channel emergency alert is emitted.  A message with emergency
intent arriving mid-booking is instead consumed by the appointment flow
with no alert. -/
theorem c3_emergency_deterministic (msg : String) (c : Context) (aA : Bool)
    (aR : Option String) (k : Nat)
    (hintent : detectIntent msg = "emergency")
    (hflow : flowActive c = false) :
    (generateResponse msg c aA aR k).aiInvoked = false ∧
    (generateResponse msg c aA aR k).emits = 1 ∧
    (generateResponse msg c aA aR k).triage =
      some { triageLevel := none, priority := some 1, action := none, urgency := some "CRITICAL" } ∧
    (generateResponse msg c aA aR k).response = pickTemplate k chatbotResponses.emergency ∧
    (generateResponse msg c aA aR k).response ∈ chatbotResponses.emergency := by
  rw [generateResponse_notInFlow msg c aA aR k hflow]
  have hkey : genAfterFlow (mkTurnData msg c aA aR k) (preprocess msg c).1 =
      { response := pickTemplate k chatbotResponses.emergency
        quickActions := ["Call 911", "Find ER"]
        triage := some { triageLevel := none, priority := some 1, action := none,
                         urgency := some "CRITICAL" }
        ctx := { (preprocess msg c).1 with
                 historyLen := (preprocess msg c).1.historyLen + 1 }
        emits := 1, aiInvoked := false, aiEnhanced := false } := by
    simp [genAfterFlow, genEmergencyStage, mkTurnData, hintent]
  rw [hkey]
  exact ⟨rfl, rfl, rfl, rfl, pickTemplate_mem k _ (by decide)⟩

/-- C3 witness: the spec\x27s end-to-end example `"I have severe chest
pain"` from a fresh session, with the generative hook available — the hook
is still not invoked and exactly one alert is emitted. -/
theorem c3_witness :
    (generateResponse "I have severe chest pain" idleCtx true (some "generated text") 2).aiInvoked =
      false ∧
    (generateResponse "I have severe chest pain" idleCtx true (some "generated text") 2).emits = 1 ∧
    (generateResponse "I have severe chest pain" idleCtx true (some "generated text") 2).triage =
      some { triageLevel := none, priority := some 1, action := none, urgency := some "CRITICAL" } ∧
    (generateResponse "I have severe chest pain" idleCtx true (some "generated text") 2).response =
      pickTemplate 2 chatbotResponses.emergency ∧
    (generateResponse "I have severe chest pain" idleCtx true (some "generated text") 2).response ∈
      chatbotResponses.emergency :=
  c3_emergency_deterministic "I have severe chest pain" idleCtx true (some "generated text") 2
    (by decide) (by decide)

/-- C3 counterexample: `"heart attack"` is classified as emergency intent,
yet when the appointment flow is active the turn emits no alert and returns
no CRITICAL triage — the claimed once-per-turn alert does not hold for every
emergency-intent message. -/
theorem c3_counterexample :
    detectIntent "heart attack" = "emergency" ∧
    (generateResponse "heart attack" midFlowCtx true (some "generated text") 1).emits = 0 ∧
    (generateResponse "heart attack" midFlowCtx true (some "generated text") 1).triage = none := by
  decide

theorem turn_trigger_start_aux (msg : String) (c : Context) (aA : Bool)
    (aR : Option String) (k : Nat)
    (hA : c.askedAppointmentType = false) (hB : c.askedAppointmentDate = false)
    (hC : c.askedAppointmentReason = false)
    (htrig2 : bookingTriggers.contains (jsTrim (jsLower msg)) = true)
    (hint : detectIntent msg = "appointment")
    (htrig1 : bookingTriggers.contains (jsLower msg) = true) :
    (generateResponse msg c aA aR k).ctx =
     ({ (preprocess msg c).1 with
          askedAppointmentType := true,
          historyLen := (preprocess msg c).1.historyLen + 1 }) := by
  have hflow : flowActive c = false := by rw [flowActive, hA, hB, hC]; rfl
  rw [generateResponse_notInFlow msg c aA aR k hflow]
  have hA1 : (preprocess msg c).1.askedAppointmentType = false := hA
  have hfl := flow_start_trigger msg (preprocess msg c).1 k htrig1 hA1
  have hmem2 : jsTrim (jsLower msg) ∈ bookingTriggers := by simpa using htrig2
  simp [genAfterFlow, mkTurnData, hmem2, hint, hfl, flowGenResult, askTypeResponse_ne_empty k]

theorem turn_trigger_start (msg : String) (c : Context) (aA : Bool)
    (aR : Option String) (k : Nat)
    (hA : c.askedAppointmentType = false) (hB : c.askedAppointmentDate = false)
    (hC : c.askedAppointmentReason = false)
    (hmem : msg ∈ bookingTriggers) :
    (generateResponse msg c aA aR k).ctx =
     ({ (preprocess msg c).1 with
          askedAppointmentType := true,
          historyLen := (preprocess msg c).1.historyLen + 1 }) := by
  have hmem' : msg = "book now" ∨ msg = "schedule appointment" ∨ msg = "book" ∨
      msg = "schedule" ∨ msg = "check availability" := by
    simpa [bookingTriggers] using hmem
  rcases hmem' with rfl | rfl | rfl | rfl | rfl <;>
    exact turn_trigger_start_aux _ c aA aR k hA hB hC (by decide) (by decide) (by decide)

theorem turn_answer_type_ctx (msg : String) (c : Context) (aA : Bool)
    (aR : Option String) (k : Nat)
    (hA : c.askedAppointmentType = true) (hB : c.askedAppointmentDate = false)
    (ht : bookingTriggers.contains (jsLower msg) = false) :
    (generateResponse msg c aA aR k).ctx =
     ({ (preprocess msg c).1 with
          appointmentType := some msg,
          askedAppointmentDate := true,
          historyLen := (preprocess msg c).1.historyLen + 1 }) := by
  have hact : flowActive c = true := by rw [flowActive, hA]; rfl
  have hfl := flow_answer_type msg (preprocess msg c).1 k hA hB ht
  rw [generateResponse_inflow_some msg c aA aR k _ _ hact hfl (askDateResponse_ne_empty msg)]
  rfl

theorem turn_answer_date_ctx (msg : String) (c : Context) (aA : Bool)
    (aR : Option String) (k : Nat)
    (hA : c.askedAppointmentType = true) (hB : c.askedAppointmentDate = true)
    (hC : c.askedAppointmentReason = false) :
    (generateResponse msg c aA aR k).ctx =
     ({ (preprocess msg c).1 with
          appointmentDate := some msg,
          askedAppointmentReason := true,
          historyLen := (preprocess msg c).1.historyLen + 1 }) := by
  have hact : flowActive c = true := by rw [flowActive, hA]; rfl
  have hfl := flow_answer_date msg (preprocess msg c).1 k hA hB hC
  rw [generateResponse_inflow_some msg c aA aR k _ _ hact hfl (askReasonResponse_ne_empty msg)]
  rfl

theorem turn_answer_reason_ctx (msg : String) (c : Context) (aA : Bool)
    (aR : Option String) (k : Nat)
    (hA : c.askedAppointmentType = true) (hB : c.askedAppointmentDate = true)
    (hC : c.askedAppointmentReason = true) :
    (generateResponse msg c aA aR k).ctx =
     ({ (preprocess msg c).1 with
          askedAppointmentType := false,
          askedAppointmentDate := false,
          askedAppointmentReason := false,
          appointmentType := none,
          appointmentDate := none,
          appointmentReason := none,
          historyLen := (preprocess msg c).1.historyLen + 1 }) := by
  have hact : flowActive c = true := by rw [flowActive, hA]; rfl
  have hfl := flow_answer_reason msg (preprocess msg c).1 k hA hB hC
  rw [generateResponse_inflow_some msg c aA aR k _ _ hact hfl
    (summaryResponse_ne_empty (preprocess msg c).1 msg)]
  rfl

/-- C6: from the Idle appointment state, four consecutive turns — an exact
booking-trigger phrase, a (non-trigger) type answer, a date answer and a
reason answer — return the appointment state to Idle: all three asked flags
false and all three stored values cleared, for any hook availability and
template draws. -/
theorem c6_round_trip (m1 m2 m3 m4 : String) (c : Context)
    (v1 v2 v3 v4 : Bool) (w1 w2 w3 w4 : Option String) (j1 j2 j3 j4 : Nat)
    (hidle : appointmentIdle c)
    (h1 : m1 ∈ bookingTriggers)
    (h2 : bookingTriggers.contains (jsLower m2) = false) :
    appointmentIdle (generateResponse m4 (generateResponse m3 (generateResponse m2
      (generateResponse m1 c v1 w1 j1).ctx v2 w2 j2).ctx v3 w3 j3).ctx v4 w4 j4).ctx := by
  obtain ⟨hA, hB, hC, _, _, _⟩ := hidle
  have e1 := turn_trigger_start m1 c v1 w1 j1 hA hB hC h1
  have f1A : (generateResponse m1 c v1 w1 j1).ctx.askedAppointmentType = true := by rw [e1]
  have f1B : (generateResponse m1 c v1 w1 j1).ctx.askedAppointmentDate = false := by
    rw [e1]; exact hB
  have f1C : (generateResponse m1 c v1 w1 j1).ctx.askedAppointmentReason = false := by
    rw [e1]; exact hC
  have e2 := turn_answer_type_ctx m2 (generateResponse m1 c v1 w1 j1).ctx v2 w2 j2 f1A f1B h2
  have f2A : (generateResponse m2 (generateResponse m1 c v1 w1 j1).ctx v2 w2
      j2).ctx.askedAppointmentType = true := by rw [e2]; exact f1A
  have f2B : (generateResponse m2 (generateResponse m1 c v1 w1 j1).ctx v2 w2
      j2).ctx.askedAppointmentDate = true := by rw [e2]
  have f2C : (generateResponse m2 (generateResponse m1 c v1 w1 j1).ctx v2 w2
      j2).ctx.askedAppointmentReason = false := by rw [e2]; exact f1C
  have e3 := turn_answer_date_ctx m3 (generateResponse m2 (generateResponse m1 c v1 w1 j1).ctx
    v2 w2 j2).ctx v3 w3 j3 f2A f2B f2C
  have f3A : (generateResponse m3 (generateResponse m2 (generateResponse m1 c v1 w1 j1).ctx v2 w2
      j2).ctx v3 w3 j3).ctx.askedAppointmentType = true := by rw [e3]; exact f2A
  have f3B : (generateResponse m3 (generateResponse m2 (generateResponse m1 c v1 w1 j1).ctx v2 w2
      j2).ctx v3 w3 j3).ctx.askedAppointmentDate = true := by rw [e3]; exact f2B
  have f3C : (generateResponse m3 (generateResponse m2 (generateResponse m1 c v1 w1 j1).ctx v2 w2
      j2).ctx v3 w3 j3).ctx.askedAppointmentReason = true := by rw [e3]
  have e4 := turn_answer_reason_ctx m4 (generateResponse m3 (generateResponse m2
    (generateResponse m1 c v1 w1 j1).ctx v2 w2 j2).ctx v3 w3 j3).ctx v4 w4 j4 f3A f3B f3C
  exact ⟨by rw [e4], by rw [e4], by rw [e4], by rw [e4], by rw [e4], by rw [e4]⟩

/-- C6 witness: the concrete conversation `"book now"`, `"General
Checkup"`, `"Tomorrow"`, `"Routine Checkup"` from a fresh session ends with
the appointment state back at Idle. -/
theorem c6_witness :
    appointmentIdle (generateResponse "Routine Checkup" (generateResponse "Tomorrow"
      (generateResponse "General Checkup" (generateResponse "book now" idleCtx false none 0).ctx
        false none 1).ctx false none 2).ctx false none 0).ctx :=
  c6_round_trip "book now" "General Checkup" "Tomorrow" "Routine Checkup" idleCtx
    false false false false none none none none 0 1 2 0
    (by exact ⟨rfl, rfl, rfl, rfl, rfl, rfl⟩) (by decide) (by decide)

theorem c7_aux (msg : String) (c : Context) (aA : Bool) (aR : Option String) (k : Nat)
    (hA : c.askedAppointmentType = true) (hB : c.askedAppointmentDate = false)
    (ht1 : bookingTriggers.contains (jsLower msg) = true)
    (hint : detectIntent msg = "appointment")
    (htm : jsTrim (jsLower msg) ∈ bookingTriggers) :
    handleAppointmentFlow msg c k = (none, c) ∧
    (generateResponse msg c aA aR k).ctx.askedAppointmentType = true ∧
    (generateResponse msg c aA aR k).ctx.askedAppointmentDate = false ∧
    (generateResponse msg c aA aR k).ctx.appointmentType = c.appointmentType ∧
    (generateResponse msg c aA aR k).emits = 0 := by
  have hguard : handleAppointmentFlow msg c k = (none, c) := flow_trigger_guard msg c k hA hB ht1
  have hact : flowActive c = true := by rw [flowActive, hA]; rfl
  have hfl : handleAppointmentFlow msg (preprocess msg c).1 k = (none, (preprocess msg c).1) :=
    flow_trigger_guard msg (preprocess msg c).1 k hA hB ht1
  rw [generateResponse_inflow_none msg c aA aR k _ hact hfl]
  refine ⟨hguard, ?_⟩
  cases hai : effectiveAI aA aR with
  | none =>
    simp [genAfterFlow, genEmergencyStage, genAIStage, genSymptomStage, genMedicationStage,
      genSpecialtyStage, genWellnessStage, genStandardStage, mkTurnData, hint, htm, hfl, hai, hA,
      hB, preprocess_askedAppointmentType, preprocess_askedAppointmentDate,
      preprocess_appointmentType]
  | some ai =>
    simp [genAfterFlow, genEmergencyStage, genAIStage, genSymptomStage, genMedicationStage,
      genSpecialtyStage, genWellnessStage, genStandardStage, mkTurnData, hint, htm, hfl, hai, hA,
      hB, preprocess_askedAppointmentType, preprocess_askedAppointmentDate,
      preprocess_appointmentType]

/-- C7: while the type question is pending (`askedAppointmentType` true,
`askedAppointmentDate` false), a message that exactly matches a
booking-trigger phrase is not treated as the type answer: the flow
controller reports no transition and leaves the context untouched, and the
full turn leaves the stored appointment type unmodified with the state still
AskedType, falling through to default handling with no alert. -/
theorem c7_trigger_not_type_answer (msg : String) (c : Context) (aA : Bool)
    (aR : Option String) (k : Nat)
    (hA : c.askedAppointmentType = true) (hB : c.askedAppointmentDate = false)
    (hmem : bookingTriggers.contains (jsLower msg) = true) :
    handleAppointmentFlow msg c k = (none, c) ∧
    (generateResponse msg c aA aR k).ctx.askedAppointmentType = true ∧
    (generateResponse msg c aA aR k).ctx.askedAppointmentDate = false ∧
    (generateResponse msg c aA aR k).ctx.appointmentType = c.appointmentType ∧
    (generateResponse msg c aA aR k).emits = 0 := by
  have hm5 : jsLower msg = "book now" ∨ jsLower msg = "schedule appointment" ∨
      jsLower msg = "book" ∨ jsLower msg = "schedule" ∨ jsLower msg = "check availability" := by
    simpa [bookingTriggers] using hmem
  rcases hm5 with he | he | he | he | he <;>
    exact c7_aux msg c aA aR k hA hB hmem
      (by unfold detectIntent; rw [he]; decide)
      (by rw [he]; decide)

/-- C7 witness: sending `"book"` while the type question is pending leaves
the state AskedType, the stored type unmodified, and emits nothing. -/
theorem c7_witness :
    handleAppointmentFlow "book" midFlowCtx 1 = (none, midFlowCtx) ∧
    (generateResponse "book" midFlowCtx false none 1).ctx.askedAppointmentType = true ∧
    (generateResponse "book" midFlowCtx false none 1).ctx.askedAppointmentDate = false ∧
    (generateResponse "book" midFlowCtx false none 1).ctx.appointmentType =
      midFlowCtx.appointmentType ∧
    (generateResponse "book" midFlowCtx false none 1).emits = 0 :=
  c7_trigger_not_type_answer "book" midFlowCtx false none 1 rfl rfl (by decide)

theorem assess_preserves_askedType (m : String) (c : Context) :
    (generateSymptomAssessment m c).2.askedAppointmentType = c.askedAppointmentType := by
  simp only [generateSymptomAssessment]
  cases hs : (extractSymptomInfo m).symptoms with
  | nil => rfl
  | cons s rest =>
    simp only [apply_ite (fun t : List String × Context => t.2.askedAppointmentType),
      apply_ite (fun t : List String × Context × String => t.2.1.askedAppointmentType),
      ite_self]

theorem genStandardStage_preserve (td : TurnData) (c : Context) (ai : Option String) (inv : Bool)
    (hna : td.intent ≠ "appointment") :
    (genStandardStage td c ai inv).ctx.askedAppointmentType = c.askedAppointmentType := by
  unfold genStandardStage
  cases ai with
  | some a => rfl
  | none =>
    simp only []
    split_ifs with h1 h2 h3 h4
    all_goals rfl

theorem genWellnessStage_preserve (td : TurnData) (c : Context) (ai : Option String) (inv : Bool)
    (hna : td.intent ≠ "appointment") :
    (genWellnessStage td c ai inv).ctx.askedAppointmentType = c.askedAppointmentType := by
  unfold genWellnessStage
  by_cases h : td.intent = "wellness"
  · rw [if_pos h]
    cases hf : medicalKnowledge.wellnessTips.find? (fun p => strContains td.message p.1) with
    | some p => simp [hf]
    | none => simp only [hf]; exact genStandardStage_preserve td c ai inv hna
  · rw [if_neg h]
    exact genStandardStage_preserve td c ai inv hna

theorem genSpecialtyStage_preserve (td : TurnData) (c : Context) (ai : Option String) (inv : Bool)
    (hna : td.intent ≠ "appointment") :
    (genSpecialtyStage td c ai inv).ctx.askedAppointmentType = c.askedAppointmentType := by
  unfold genSpecialtyStage
  by_cases h : td.intent = "specialty"
  · rw [if_pos h]
    cases hf : medicalKnowledge.specialties.find? (fun p =>
        strContains td.message (strRemoveFirst p.1 "ology") || strContains td.message p.1) with
    | some p => simp [hf]
    | none => simp only [hf]; exact genWellnessStage_preserve td c ai inv hna
  · rw [if_neg h]
    exact genWellnessStage_preserve td c ai inv hna

theorem genMedicationStage_preserve (td : TurnData) (c : Context) (ai : Option String) (inv : Bool)
    (hna : td.intent ≠ "appointment") :
    (genMedicationStage td c ai inv).ctx.askedAppointmentType = c.askedAppointmentType := by
  unfold genMedicationStage
  by_cases h : (td.intent = "medication" && !td.entities.medications.isEmpty) = true
  · rw [if_pos h]
    by_cases h2 : (!(checkMedicationInteractions td.entities.medications).2.isEmpty) = true
    · simp only [h2, if_pos]
    · simp only [h2]
      simp only [Bool.not_eq_true] at h2
      simp only [h2, Bool.false_eq_true, if_false]
      exact genSpecialtyStage_preserve td c ai inv hna
  · rw [if_neg h]
    exact genSpecialtyStage_preserve td c ai inv hna

theorem genSymptomStage_preserve (td : TurnData) (c : Context) (ai : Option String) (inv : Bool)
    (hna : td.intent ≠ "appointment") :
    (genSymptomStage td c ai inv).ctx.askedAppointmentType = c.askedAppointmentType := by
  unfold genSymptomStage
  by_cases h : td.intent = "symptom"
  · rw [if_pos h]
    cases ai with
    | some a =>
      simp only []
      exact assess_preserves_askedType td.userMessage c
    | none =>
      simp only []
      cases ha : (generateSymptomAssessment td.userMessage c).1 with
      | some a =>
        simp only [ha]
        exact assess_preserves_askedType td.userMessage c
      | none =>
        simp only [ha]
        exact assess_preserves_askedType td.userMessage c
  · rw [if_neg h]
    exact genMedicationStage_preserve td c ai inv hna

theorem genEmergencyStage_preserve (td : TurnData) (c : Context)
    (hna : td.intent ≠ "appointment") :
    (genEmergencyStage td c).ctx.askedAppointmentType = c.askedAppointmentType := by
  unfold genEmergencyStage
  by_cases h : td.intent = "emergency"
  · rw [if_pos h]
  · rw [if_neg h]
    exact genSymptomStage_preserve td c _ _ hna

theorem genAfterFlow_preserve (td : TurnData) (c : Context)
    (hna : td.intent ≠ "appointment") :
    (genAfterFlow td c).ctx.askedAppointmentType = c.askedAppointmentType := by
  unfold genAfterFlow
  have hd : (decide (td.intent = "appointment")) = false := by simpa using hna
  simp only [hd, Bool.and_false, Bool.false_eq_true, if_false]
  exact genEmergencyStage_preserve td c hna

theorem stages_ai_some_appointment (td : TurnData) (c : Context) (a : String) (inv : Bool)
    (h : td.intent = "appointment") :
    (genSymptomStage td c (some a) inv).ctx = { c with historyLen := c.historyLen + 1 } := by
  simp [genSymptomStage, genMedicationStage, genSpecialtyStage, genWellnessStage,
    genStandardStage, h]

/-- C8 (amended): from the Idle appointment state, the booking flow starts
(`askedAppointmentType` becomes true) exactly when the message has
appointment intent and either the trimmed lower-cased message exactly
matches a booking-trigger phrase or the generative hook yields no response.
The exact-trigger rule of the claim holds, but it is not the only entry: a
non-trigger appointment-intent message such as `"I need an appointment"`
also starts the flow whenever the rule-based fallback runs, because the
fallback appointment branch consults the flow controller, whose final
branch starts the flow from Idle.  Non-appointment-intent messages never
start the flow. -/
theorem c8_flow_start_iff (msg : String) (c : Context) (aA : Bool) (aR : Option String) (k : Nat)
    (hidle : appointmentIdle c) :
    (generateResponse msg c aA aR k).ctx.askedAppointmentType = true ↔
      (detectIntent msg = "appointment" ∧
        (bookingTriggers.contains (jsTrim (jsLower msg)) = true ∨ effectiveAI aA aR = none)) := by
  obtain ⟨hA, hB, hC, hT, hD, hR⟩ := hidle
  have hflow : flowActive c = false := by rw [flowActive, hA, hB, hC]; rfl
  rw [generateResponse_notInFlow msg c aA aR k hflow]
  by_cases hint : detectIntent msg = "appointment"
  · by_cases htr : bookingTriggers.contains (jsTrim (jsLower msg)) = true
    · have hmem2 : jsTrim (jsLower msg) ∈ bookingTriggers := by simpa using htr
      have hfl := flow_from_idle msg (preprocess msg c).1 k hA hB hC
      have hctx : (genAfterFlow (mkTurnData msg c aA aR k)
          (preprocess msg c).1).ctx.askedAppointmentType = true := by
        simp [genAfterFlow, mkTurnData, hmem2, hint, hfl, flowGenResult,
          askTypeResponse_ne_empty k]
      rw [hctx]
      simp [hint]
      exact Or.inl hmem2
    · have htr' : bookingTriggers.contains (jsTrim (jsLower msg)) = false := by
        simpa using htr
      have hred : genAfterFlow (mkTurnData msg c aA aR k) (preprocess msg c).1 =
          genSymptomStage (mkTurnData msg c aA aR k) (preprocess msg c).1
            (effectiveAI aA aR) aA := by
        have he : (mkTurnData msg c aA aR k).intent ≠ "emergency" := by
          rw [mkTurnData_intent, hint]; decide
        simp only [genAfterFlow, genEmergencyStage, genAIStage, mkTurnData_message, htr',
          Bool.false_and, Bool.false_eq_true, if_false, if_neg he]
        rfl
      rw [hred]
      cases hai : effectiveAI aA aR with
      | some a =>
        have hctx := stages_ai_some_appointment (mkTurnData msg c aA aR k)
          (preprocess msg c).1 a aA hint
        rw [hctx]
        have hm : jsTrim (jsLower msg) ∉ bookingTriggers := by simpa using htr
        simp [preprocess_askedAppointmentType, hA, hai, hm, hint]
      | none =>
        have hfl := flow_from_idle msg (preprocess msg c).1 k hA hB hC
        have hctx : (genSymptomStage (mkTurnData msg c aA aR k) (preprocess msg c).1
            none aA).ctx.askedAppointmentType = true := by
          simp [genSymptomStage, genMedicationStage, genSpecialtyStage, genWellnessStage,
            genStandardStage, mkTurnData, hint, hfl]
        rw [hctx]
        simp [hint, hai]
  · have hna : (mkTurnData msg c aA aR k).intent ≠ "appointment" := hint
    have hpres := genAfterFlow_preserve (mkTurnData msg c aA aR k) (preprocess msg c).1 hna
    rw [hpres, preprocess_askedAppointmentType, hA]
    simp [hint]

/-- C8 witness: `"I need an appointment"` (appointment intent, not a
trigger phrase) sent from Idle with the hook unavailable starts the booking
flow, while the same message with a hook response available does not. -/
theorem c8_witness :
    (generateResponse "I need an appointment" idleCtx false none 3).ctx.askedAppointmentType =
      true ∧
    (generateResponse "I need an appointment" idleCtx true (some "generated text")
      3).ctx.askedAppointmentType = false :=
  ⟨(c8_flow_start_iff "I need an appointment" idleCtx false none 3
      ⟨rfl, rfl, rfl, rfl, rfl, rfl⟩).mpr ⟨by decide, Or.inr (by decide)⟩,
   by
    have h := c8_flow_start_iff "I need an appointment" idleCtx true (some "generated text") 3
      ⟨rfl, rfl, rfl, rfl, rfl, rfl⟩
    have hfalse : ¬(detectIntent "I need an appointment" = "appointment" ∧
        (bookingTriggers.contains (jsTrim (jsLower "I need an appointment")) = true ∨
          effectiveAI true (some "generated text") = none)) := by decide
    cases hb : (generateResponse "I need an appointment" idleCtx true (some "generated text")
        3).ctx.askedAppointmentType with
    | false => rfl
    | true => exact absurd (h.mp hb) hfalse⟩

/-- C8 counterexample: `"I need an appointment"` has appointment intent and
is not an exact booking-trigger phrase, yet processed from Idle (rule-based
path) the booking flow starts and `askedAppointmentType` becomes true — the
claim that the flow starts only on an exact trigger match is false. -/
theorem c8_counterexample :
    detectIntent "I need an appointment" = "appointment" ∧
    bookingTriggers.contains (jsTrim (jsLower "I need an appointment")) = false ∧
    (generateResponse "I need an appointment" idleCtx false none 0).ctx.askedAppointmentType =
      true := by decide
